import Mathlib

/-!
# LearnOpenGL triangle program: model of `Main.cpp` and its verified properties

`Main.cpp` is one linear script against the GLFW / OpenGL / GLM interfaces.
The model keeps the script as it is written: every interface call of the
source is a Lean function on an explicit program state, `main` and the render
loop compose them in source order, and everything the interfaces hand back to
the program (window creation, loader result, compile and link status, info
logs, uniform location, keyboard, clock, window events) is an input.

Floats are modelled by exact rationals.  `sizeof(float)` is 4.
-/

namespace LearnOpenGL

/-! ## Constants of the GL and GLFW headers

The headers are not part of the sources; the values are those of the Khronos
and GLFW headers. -/

def GL_FALSE : Nat := 0
def GL_TRIANGLES : Nat := 0x0004
def GL_FLOAT : Nat := 0x1406
def GL_COLOR_BUFFER_BIT : Nat := 0x4000
def GL_ARRAY_BUFFER : Nat := 0x8892
def GL_STATIC_DRAW : Nat := 0x88E4
def GL_FRAGMENT_SHADER : Nat := 0x8B30
def GL_VERTEX_SHADER : Nat := 0x8B31
def GL_COMPILE_STATUS : Nat := 0x8B81
def GL_LINK_STATUS : Nat := 0x8B82
def GL_INVALID_ENUM : Nat := 0x0500
def GL_INVALID_VALUE : Nat := 0x0501
def GL_INVALID_OPERATION : Nat := 0x0502
def GLFW_PRESS : Int := 1
def GLFW_RELEASE : Int := 0
def GLFW_KEY_ESCAPE : Int := 256

/-- The value of `sizeof(float)`. -/
def sizeofFloat : Nat := 4

def SCR_WIDTH : Nat := 800
def SCR_HEIGHT : Nat := 600

/-! ## GLM: vectors and column-major 4x4 matrices

GLM is a library the program includes; its headers are not part of the
sources. -/

structure Vec3 where
  x : Rat
  y : Rat
  z : Rat
  deriving DecidableEq

structure Vec4 where
  x : Rat
  y : Rat
  z : Rat
  w : Rat
  deriving DecidableEq

/-- A `glm::mat4`: four columns, `c3` being the translation column. -/
structure Mat4 where
  c0 : Vec4
  c1 : Vec4
  c2 : Vec4
  c3 : Vec4
  deriving DecidableEq

namespace Vec4

/-- Component-wise `vec4 * scalar`. -/
def scale (v : Vec4) (k : Rat) : Vec4 := ⟨v.x * k, v.y * k, v.z * k, v.w * k⟩

/-- Component-wise `vec4 + vec4`. -/
def add (a b : Vec4) : Vec4 := ⟨a.x + b.x, a.y + b.y, a.z + b.z, a.w + b.w⟩

end Vec4

/-- Modelled from the spec: the constructor `glm::mat4(s)` of the GLM headers,
which are not part of the sources; `glm::mat4(1.0f)` is the spec's "identity".
As in GLM, `s` on the diagonal and zero elsewhere. -/
def mat4Diag (s : Rat) : Mat4 :=
  ⟨⟨s, 0, 0, 0⟩, ⟨0, s, 0, 0⟩, ⟨0, 0, s, 0⟩, ⟨0, 0, 0, s⟩⟩

/-- Modelled from the spec: `glm::translate` belongs to the GLM headers, which
are not part of the sources; the spec asks for "translate by ... along X and Y,
identity otherwise".  The body is GLM's own:
`Result = m; Result[3] = m[0] * v[0] + m[1] * v[1] + m[2] * v[2] + m[3]`. -/
def translate (m : Mat4) (v : Vec3) : Mat4 :=
  { m with
    c3 := Vec4.add (Vec4.add (Vec4.add (m.c0.scale v.x) (m.c1.scale v.y)) (m.c2.scale v.z)) m.c3 }

/-- Lines 156-158 of `main`: the matrix built from the clock value `time`
(`glfwGetTime()`), with `0.1 * time` taken exactly. -/
def frameTransform (time : Rat) : Mat4 :=
  let trans := mat4Diag 1
  let transform : Rat := 0.1 * time
  translate trans ⟨transform, transform, 0⟩

/-! ## The fixed data of the program -/

/-- The source text of the vertex shader (line 18). -/
def vertexShaderSource : String :=
  "#version 330 core\n" ++
  "layout (location = 0) in vec3 aPos;\n" ++
  "layout (location = 1) in vec3 aColor;\n" ++
  "out vec3 ourColor;\n" ++
  "uniform mat4 transform;\n" ++
  "void main()\n" ++
  "\x7b\n" ++
  "   gl_Position = transform * vec4(aPos * vec3(1.0, -1.0, 1.0), 1.0);\n" ++
  "   ourColor = aColor;\n" ++
  "\x7d"

/-- The source text of the fragment shader (line 28). -/
def fragmentShaderSource : String :=
  "#version 330 core\n" ++
  "out vec4 FragColor;\n" ++
  "in vec3 ourColor;\n" ++
  "void main()\n" ++
  "\x7b\n" ++
  "    FragColor = vec4(ourColor, 1.0f);\n" ++
  "\x7d"

/-- The array `float vertices[]` of lines 108-113, in source order. -/
def vertices : List Rat :=
  [ 0.5, -0.5, 0.0,  1.0, 0.0, 0.0,
   -0.5, -0.5, 0.0,  0.0, 1.0, 0.0,
    0.0,  0.5, 0.0,  0.0, 0.0, 1.0 ]

/-- The value of `sizeof(vertices)`: the element count times `sizeof(float)`. -/
def sizeofVertices : Nat := vertices.length * sizeofFloat

/-! ## The OpenGL context -/

/-- One generic vertex attribute of a vertex array object, as set by
`glVertexAttribPointer` (which also captures the bound array buffer) and
`glEnableVertexAttribArray`. -/
structure AttribState where
  size : Nat
  type : Nat
  normalized : Nat
  stride : Nat
  offset : Nat
  buffer : Nat
  enabled : Bool
  deriving DecidableEq

/-- The initial state of a generic vertex attribute. -/
def AttribState.initial : AttribState := ⟨4, GL_FLOAT, GL_FALSE, 0, 0, 0, false⟩

/-- The data store of a buffer object. -/
structure BufferStore where
  size : Nat
  data : List Rat
  usage : Nat
  deriving DecidableEq

/-- The objects of the shared shader / program name space. -/
inductive GLObject where
  | shader (type : Nat) (source : String) (compileStatus : Bool) (deleteFlag : Bool)
  | program (attached : List Nat) (linkStatus : Bool)
  deriving DecidableEq

/-- A viewport rectangle `(x, y, width, height)`. -/
structure Viewport where
  x : Int
  y : Int
  width : Int
  height : Int
  deriving DecidableEq

/-- A record of one OpenGL command as it was issued, with its arguments. -/
inductive GLCall where
  | createShader (type : Nat)
  | shaderSource (shader : Nat) (count : Nat) (source : String)
  | compileShader (shader : Nat)
  | getShaderiv (shader : Nat) (pname : Nat)
  | getShaderInfoLog (shader : Nat) (maxLength : Nat)
  | createProgram
  | attachShader (program : Nat) (shader : Nat)
  | linkProgram (program : Nat)
  | getProgramInfoLog (program : Nat) (maxLength : Nat)
  | deleteShader (shader : Nat)
  | genVertexArrays (n : Nat)
  | genBuffers (n : Nat)
  | bindVertexArray (array : Nat)
  | bindBuffer (target : Nat) (buffer : Nat)
  | bufferData (target : Nat) (size : Nat) (data : List Rat) (usage : Nat)
  | vertexAttribPointer (index size type normalized stride offset : Nat)
  | enableVertexAttribArray (index : Nat)
  | clearColor (r g b a : Rat)
  | clear (mask : Nat)
  | useProgram (program : Nat)
  | getUniformLocation (program : Nat) (name : String)
  | uniformMatrix4fv (location : Int) (count : Nat) (transpose : Nat) (value : Mat4)
  | drawArrays (mode : Nat) (first : Int) (count : Int)
  | viewport (x y width height : Int)
  | deleteVertexArrays (array : Nat)
  | deleteBuffers (buffer : Nat)
  | deleteProgram (program : Nat)
  deriving DecidableEq

/-- The part of the OpenGL context the program touches.  Names of shaders and
programs come from one counter, those of vertex arrays and of buffers from
their own.  A command that raises an error puts the error flag in `errors`
and changes nothing else. -/
structure GLState where
  objects : Nat → Option GLObject
  nextObject : Nat
  nextVertexArray : Nat
  nextBuffer : Nat
  buffers : Nat → Option BufferStore
  vertexArrays : Nat → Option (Nat → AttribState)
  vertexArrayBinding : Nat
  arrayBufferBinding : Nat
  currentProgram : Nat
  clearColor : Rat × Rat × Rat × Rat
  viewport : Viewport
  uniforms : Nat → Int → Option Mat4
  errors : List Nat
  calls : List GLCall

/-- One message written to `std::cout`; `Output.text` is the text itself. -/
inductive Output where
  | windowFailed
  | gladFailed
  | vertexFailed (infoLog : String)
  | fragmentFailed (infoLog : String)
  | linkFailed (infoLog : String)
  deriving DecidableEq

/-- The characters a message puts on `std::cout` (`std::endl` as a newline). -/
def Output.text : Output → String
  | .windowFailed => "Failed to create GLFW window\n"
  | .gladFailed => "Failed to initialize GLAD\n"
  | .vertexFailed infoLog => "ERROR::SHADER::VERTEX::COMPILATION_FAILED\n" ++ infoLog ++ "\n"
  | .fragmentFailed infoLog => "ERROR::SHADER::FRAGMENT::COMPILATION_FAILED\n" ++ infoLog ++ "\n"
  | .linkFailed infoLog => "ERROR::SHADER::PROGRAMM::COMPILATION_FAILED\n" ++ infoLog ++ "\n"

/-- The state of the process: the GL context, the close flag of the window,
and the text written to `std::cout`. -/
structure ProgState where
  gl : GLState
  shouldClose : Bool
  out : List Output

/-! ## The OpenGL commands the program issues

The commands belong to the graphics driver, not to the sources.  Each is
modelled after its OpenGL reference page, as far as the program can observe it:
it is put on record in `calls`, a command that raises an error changes
nothing else, and queries answer from the stored state or, for what only the
driver knows (compile and link results, logs, uniform locations), from an
input. -/

/-- The context before any command. -/
def GLState.initial : GLState where
  objects := fun _ => none
  nextObject := 1
  nextVertexArray := 1
  nextBuffer := 1
  buffers := fun _ => none
  vertexArrays := fun _ => none
  vertexArrayBinding := 0
  arrayBufferBinding := 0
  currentProgram := 0
  clearColor := (0, 0, 0, 0)
  viewport := ⟨0, 0, SCR_WIDTH, SCR_HEIGHT⟩
  uniforms := fun _ _ => none
  errors := []
  calls := []

/-- Appends a command to the record of issued commands. -/
def GLState.log (s : GLState) (c : GLCall) : GLState :=
  { s with calls := s.calls ++ [c] }

/-- Records a GL error flag. -/
def GLState.raise (s : GLState) (e : Nat) : GLState :=
  { s with errors := s.errors ++ [e] }

/-- The command `glCreateShader`: a fresh shader object; returns its name. -/
def glCreateShader (s : GLState) (type : Nat) : GLState × Nat :=
  let s := s.log (.createShader type)
  let name := s.nextObject
  ({ s with
      objects := fun k => if k = name then some (.shader type "" false false) else s.objects k
      nextObject := name + 1 }, name)

/-- The command `glShaderSource(shader, count, &source, NULL)`. -/
def glShaderSource (s : GLState) (shader count : Nat) (source : String) : GLState :=
  let s := s.log (.shaderSource shader count source)
  match s.objects shader with
  | some (.shader ty _ st del) =>
    { s with objects := fun k => if k = shader then some (.shader ty source st del) else s.objects k }
  | _ => s.raise GL_INVALID_OPERATION

/-- The command `glCompileShader`; `status` is the outcome the driver reports. -/
def glCompileShader (s : GLState) (shader : Nat) (status : Bool) : GLState :=
  let s := s.log (.compileShader shader)
  match s.objects shader with
  | some (.shader ty src _ del) =>
    { s with objects := fun k => if k = shader then some (.shader ty src status del) else s.objects k }
  | _ => s.raise GL_INVALID_OPERATION

/-- The query `glGetShaderiv(shader, pname, &params)`: returns the new content
of `params`.  For a name that is not a shader object it raises
`GL_INVALID_OPERATION`, and for a parameter that is no shader parameter
`GL_INVALID_ENUM`; in both cases `params` keeps its content.  Of the shader
parameters only `GL_COMPILE_STATUS` is modelled. -/
def glGetShaderiv (s : GLState) (shader pname : Nat) (params : Int) : GLState × Int :=
  let s := s.log (.getShaderiv shader pname)
  match s.objects shader with
  | some (.shader _ _ st _) =>
    if pname = GL_COMPILE_STATUS then (s, if st then 1 else 0)
    else (s.raise GL_INVALID_ENUM, params)
  | _ => (s.raise GL_INVALID_OPERATION, params)

/-- The query `glGetShaderInfoLog(shader, maxLength, NULL, infoLog)`: returns
the new content of `infoLog`, at most `maxLength - 1` characters of the log
`driverLog` the driver keeps for the shader. -/
def glGetShaderInfoLog (s : GLState) (shader maxLength : Nat) (driverLog infoLog : String) :
    GLState × String :=
  let s := s.log (.getShaderInfoLog shader maxLength)
  match s.objects shader with
  | some (.shader _ _ _ _) => (s, driverLog.take (maxLength - 1))
  | _ => (s.raise GL_INVALID_OPERATION, infoLog)

/-- The command `glCreateProgram`: a fresh program object; returns its name. -/
def glCreateProgram (s : GLState) : GLState × Nat :=
  let s := s.log .createProgram
  let name := s.nextObject
  ({ s with
      objects := fun k => if k = name then some (.program [] false) else s.objects k
      nextObject := name + 1 }, name)

/-- The command `glAttachShader`. -/
def glAttachShader (s : GLState) (program shader : Nat) : GLState :=
  let s := s.log (.attachShader program shader)
  match s.objects program, s.objects shader with
  | some (.program att st), some (.shader _ _ _ _) =>
    { s with
      objects := fun k => if k = program then some (.program (att ++ [shader]) st) else s.objects k }
  | _, _ => s.raise GL_INVALID_OPERATION

/-- The command `glLinkProgram`; `status` is the outcome the driver reports. -/
def glLinkProgram (s : GLState) (program : Nat) (status : Bool) : GLState :=
  let s := s.log (.linkProgram program)
  match s.objects program with
  | some (.program att _) =>
    { s with objects := fun k => if k = program then some (.program att status) else s.objects k }
  | _ => s.raise GL_INVALID_OPERATION

/-- The query `glGetProgramInfoLog(program, maxLength, NULL, infoLog)`. -/
def glGetProgramInfoLog (s : GLState) (program maxLength : Nat) (driverLog infoLog : String) :
    GLState × String :=
  let s := s.log (.getProgramInfoLog program maxLength)
  match s.objects program with
  | some (.program _ _) => (s, driverLog.take (maxLength - 1))
  | _ => (s.raise GL_INVALID_OPERATION, infoLog)

/-- The command `glDeleteShader`: a shader is flagged for deletion (it stays
while it is attached to a program). -/
def glDeleteShader (s : GLState) (shader : Nat) : GLState :=
  let s := s.log (.deleteShader shader)
  match s.objects shader with
  | some (.shader ty src st _) =>
    { s with objects := fun k => if k = shader then some (.shader ty src st true) else s.objects k }
  | _ => s.raise GL_INVALID_VALUE

/-- The command `glGenVertexArrays(1, &array)`: returns the new name. -/
def glGenVertexArrays (s : GLState) (n : Nat) : GLState × Nat :=
  let s := s.log (.genVertexArrays n)
  ({ s with nextVertexArray := s.nextVertexArray + n }, s.nextVertexArray)

/-- The command `glGenBuffers(1, &buffer)`: returns the new name. -/
def glGenBuffers (s : GLState) (n : Nat) : GLState × Nat :=
  let s := s.log (.genBuffers n)
  ({ s with nextBuffer := s.nextBuffer + n }, s.nextBuffer)

/-- The command `glBindVertexArray`: binds the name, creating the vertex array
object at its first binding; `0` breaks the binding. -/
def glBindVertexArray (s : GLState) (array : Nat) : GLState :=
  let s := s.log (.bindVertexArray array)
  if array = 0 then { s with vertexArrayBinding := 0 }
  else
    match s.vertexArrays array with
    | some _ => { s with vertexArrayBinding := array }
    | none =>
      { s with
        vertexArrays := fun w =>
          if w = array then some (fun _ => AttribState.initial) else s.vertexArrays w
        vertexArrayBinding := array }

/-- The command `glBindBuffer`, for the one target the program uses. -/
def glBindBuffer (s : GLState) (target buffer : Nat) : GLState :=
  let s := s.log (.bindBuffer target buffer)
  if target = GL_ARRAY_BUFFER then { s with arrayBufferBinding := buffer }
  else s.raise GL_INVALID_ENUM

/-- The command `glBufferData(target, size, data, usage)`: gives the buffer
bound to `target` a new data store holding the first `size` bytes of `data`. -/
def glBufferData (s : GLState) (target size : Nat) (data : List Rat) (usage : Nat) : GLState :=
  let s := s.log (.bufferData target size data usage)
  if target = GL_ARRAY_BUFFER then
    if s.arrayBufferBinding = 0 then s.raise GL_INVALID_OPERATION
    else
      let b := s.arrayBufferBinding
      let store : BufferStore := ⟨size, data.take (size / sizeofFloat), usage⟩
      { s with buffers := fun k => if k = b then some store else s.buffers k }
  else s.raise GL_INVALID_ENUM

/-- The command `glVertexAttribPointer`: sets the layout of attribute `index`
of the bound vertex array, reading from the bound array buffer. -/
def glVertexAttribPointer (s : GLState) (index size type normalized stride offset : Nat) :
    GLState :=
  let s := s.log (.vertexAttribPointer index size type normalized stride offset)
  let v := s.vertexArrayBinding
  match s.vertexArrays v with
  | none => s.raise GL_INVALID_OPERATION
  | some attribs =>
    let a : AttribState :=
      ⟨size, type, normalized, stride, offset, s.arrayBufferBinding, (attribs index).enabled⟩
    let attribs := fun i => if i = index then a else attribs i
    { s with vertexArrays := fun w => if w = v then some attribs else s.vertexArrays w }

/-- The command `glEnableVertexAttribArray`, on the bound vertex array. -/
def glEnableVertexAttribArray (s : GLState) (index : Nat) : GLState :=
  let s := s.log (.enableVertexAttribArray index)
  let v := s.vertexArrayBinding
  match s.vertexArrays v with
  | none => s.raise GL_INVALID_OPERATION
  | some attribs =>
    let a : AttribState := { attribs index with enabled := true }
    let attribs := fun i => if i = index then a else attribs i
    { s with vertexArrays := fun w => if w = v then some attribs else s.vertexArrays w }

/-- The command `glClearColor`. -/
def glClearColor (s : GLState) (r g b a : Rat) : GLState :=
  { s.log (.clearColor r g b a) with clearColor := (r, g, b, a) }

/-- The command `glClear`; the pixels of the framebuffer are not modelled. -/
def glClear (s : GLState) (mask : Nat) : GLState :=
  s.log (.clear mask)

/-- The command `glUseProgram`: makes a successfully linked program object the
current one, and `0` leaves no program current.  For a program object that is
not linked, or a name that is a shader, it raises `GL_INVALID_OPERATION`, for a
name that is no object `GL_INVALID_VALUE`; the current program then stays as
it was. -/
def glUseProgram (s : GLState) (program : Nat) : GLState :=
  let s := s.log (.useProgram program)
  if program = 0 then { s with currentProgram := 0 }
  else
    match s.objects program with
    | some (.program _ linkStatus) =>
      if linkStatus then { s with currentProgram := program }
      else s.raise GL_INVALID_OPERATION
    | some (.shader _ _ _ _) => s.raise GL_INVALID_OPERATION
    | none => s.raise GL_INVALID_VALUE

/-- The query `glGetUniformLocation`; `location` is what the driver answers. -/
def glGetUniformLocation (s : GLState) (program : Nat) (name : String) (location : Int) :
    GLState × Int :=
  (s.log (.getUniformLocation program name), location)

/-- The command `glUniformMatrix4fv`: with no current program it raises
`GL_INVALID_OPERATION` and stores nothing; otherwise location `-1` is silently
ignored and any other one receives the matrix in the current program. -/
def glUniformMatrix4fv (s : GLState) (location : Int) (count transpose : Nat) (value : Mat4) :
    GLState :=
  let s := s.log (.uniformMatrix4fv location count transpose value)
  if s.currentProgram = 0 then s.raise GL_INVALID_OPERATION
  else if location = -1 then s
  else
    let p := s.currentProgram
    { s with uniforms := fun q l => if q = p ∧ l = location then some value else s.uniforms q l }

/-- The command `glDrawArrays`; the pixels of the framebuffer are not modelled. -/
def glDrawArrays (s : GLState) (mode : Nat) (first count : Int) : GLState :=
  s.log (.drawArrays mode first count)

/-- The command `glViewport`: sets the viewport rectangle. -/
def glViewport (s : GLState) (x y width height : Int) : GLState :=
  { s.log (.viewport x y width height) with viewport := ⟨x, y, width, height⟩ }

/-- The command `glDeleteVertexArrays(1, &array)`. -/
def glDeleteVertexArrays (s : GLState) (array : Nat) : GLState :=
  let s := s.log (.deleteVertexArrays array)
  { s with
    vertexArrays := fun w => if w = array then none else s.vertexArrays w
    vertexArrayBinding := if s.vertexArrayBinding = array then 0 else s.vertexArrayBinding }

/-- The command `glDeleteBuffers(1, &buffer)`. -/
def glDeleteBuffers (s : GLState) (buffer : Nat) : GLState :=
  let s := s.log (.deleteBuffers buffer)
  { s with
    buffers := fun k => if k = buffer then none else s.buffers k
    arrayBufferBinding := if s.arrayBufferBinding = buffer then 0 else s.arrayBufferBinding }

/-- The command `glDeleteProgram`: the current program is only flagged, any
other one is removed. -/
def glDeleteProgram (s : GLState) (program : Nat) : GLState :=
  let s := s.log (.deleteProgram program)
  if s.currentProgram = program then s
  else { s with objects := fun k => if k = program then none else s.objects k }

/-! ## What the outside world supplies -/

/-- An event delivered to the window while `glfwPollEvents` runs. -/
inductive WindowEvent where
  | closeRequested
  | framebufferSize (width height : Int)
  deriving DecidableEq

/-- What one pass of the render loop reads from outside: the answer of
`glfwGetKey` for every key, the clock `glfwGetTime()`, and the events
`glfwPollEvents` delivers at the end of the pass. -/
structure FrameInput where
  keys : Int → Int
  time : Rat
  events : List WindowEvent

/-- Everything a run of `main` reads from outside.  `success0` and `infoLog0`
are the indeterminate initial contents of the locals `success` and `infoLog`. -/
structure Env where
  windowCreated : Bool
  gladLoaded : Bool
  vertexCompiles : Bool
  vertexLog : String
  fragmentCompiles : Bool
  fragmentLog : String
  programLinks : Bool
  programLog : String
  transformLocation : Int
  success0 : Int
  infoLog0 : String
  frames : List FrameInput

/-- The object names `main` keeps in its locals. -/
structure Handles where
  shaderProgram : Nat
  VAO : Nat
  VBO : Nat
  deriving DecidableEq

/-! ## The program -/

/-- The process state when `main` starts. -/
def ProgState.initial : ProgState := ⟨GLState.initial, false, []⟩

/-- Writes a message to `std::cout`. -/
def ProgState.print (s : ProgState) (message : Output) : ProgState :=
  { s with out := s.out ++ [message] }

/-- The GLFW call `glfwSetWindowShouldClose`: sets the close flag. -/
def glfwSetWindowShouldClose (s : ProgState) (value : Bool) : ProgState :=
  { s with shouldClose := value }

/-- The function `processInput` (lines 184-188). -/
def processInput (keys : Int → Int) (s : ProgState) : ProgState :=
  if keys GLFW_KEY_ESCAPE = GLFW_PRESS then glfwSetWindowShouldClose s true else s

/-- The function `framebuffer_size_callback` (lines 190-193). -/
def framebuffer_size_callback (s : ProgState) (width height : Int) : ProgState :=
  { s with gl := glViewport s.gl 0 0 width height }

/-- The effect of one window event: a close request raises the close flag, a
framebuffer resize runs the callback installed at line 53. -/
def deliver (s : ProgState) : WindowEvent → ProgState
  | .closeRequested => glfwSetWindowShouldClose s true
  | .framebufferSize w h => framebuffer_size_callback s w h

/-- The GLFW call `glfwPollEvents`: delivers the pending events in order. -/
def glfwPollEvents (s : ProgState) (events : List WindowEvent) : ProgState :=
  events.foldl deliver s

/-- Lines 61-105 of `main`: both shaders, the program object, the three
status checks and the release of the shader objects.  Returns the name kept
in `shaderProgram`. -/
def shaderSetup (env : Env) (s : ProgState) : ProgState × Nat :=
  let gl := s.gl
  let out := s.out
  -- vertex shader setup
  let (gl, vertexShader) := glCreateShader gl GL_VERTEX_SHADER
  let gl := glShaderSource gl vertexShader 1 vertexShaderSource
  let gl := glCompileShader gl vertexShader env.vertexCompiles
  let success := env.success0
  let infoLog := env.infoLog0
  let (gl, success) := glGetShaderiv gl vertexShader GL_COMPILE_STATUS success
  let (gl, infoLog, out) :=
    if success = 0 then
      let (gl, infoLog) := glGetShaderInfoLog gl vertexShader 512 env.vertexLog infoLog
      (gl, infoLog, out ++ [Output.vertexFailed infoLog])
    else (gl, infoLog, out)
  -- fragment shader setup
  let (gl, fragmentShader) := glCreateShader gl GL_FRAGMENT_SHADER
  let gl := glShaderSource gl fragmentShader 1 fragmentShaderSource
  let gl := glCompileShader gl fragmentShader env.fragmentCompiles
  let (gl, success) := glGetShaderiv gl fragmentShader GL_COMPILE_STATUS success
  let (gl, infoLog, out) :=
    if success = 0 then
      let (gl, infoLog) := glGetShaderInfoLog gl fragmentShader 512 env.fragmentLog infoLog
      (gl, infoLog, out ++ [Output.fragmentFailed infoLog])
    else (gl, infoLog, out)
  -- link shaders to a shader program object
  let (gl, shaderProgram) := glCreateProgram gl
  let gl := glAttachShader gl shaderProgram vertexShader
  let gl := glAttachShader gl shaderProgram fragmentShader
  let gl := glLinkProgram gl shaderProgram env.programLinks
  let (gl, success) := glGetShaderiv gl shaderProgram GL_LINK_STATUS success
  let (gl, _, out) :=
    if success = 0 then
      let (gl, infoLog) := glGetProgramInfoLog gl shaderProgram 512 env.programLog infoLog
      (gl, infoLog, out ++ [Output.linkFailed infoLog])
    else (gl, infoLog, out)
  let gl := glDeleteShader gl vertexShader
  let gl := glDeleteShader gl fragmentShader
  ({ s with gl := gl, out := out }, shaderProgram)

/-- Lines 107-134 of `main`: vertex array, vertex buffer, upload and attribute
layout.  Returns the names kept in `VAO` and `VBO`. -/
def vertexSetup (s : ProgState) : ProgState × Nat × Nat :=
  let gl := s.gl
  let (gl, VAO) := glGenVertexArrays gl 1
  let (gl, VBO) := glGenBuffers gl 1
  let gl := glBindVertexArray gl VAO
  let gl := glBindBuffer gl GL_ARRAY_BUFFER VBO
  let gl := glBufferData gl GL_ARRAY_BUFFER sizeofVertices vertices GL_STATIC_DRAW
  -- position attribute
  let gl := glVertexAttribPointer gl 0 3 GL_FLOAT GL_FALSE (6 * sizeofFloat) 0
  let gl := glEnableVertexAttribArray gl 0
  -- color attribute
  let gl := glVertexAttribPointer gl 1 3 GL_FLOAT GL_FALSE (6 * sizeofFloat) (3 * sizeofFloat)
  let gl := glEnableVertexAttribArray gl 1
  -- unbind VBO and VAO
  let gl := glBindBuffer gl GL_ARRAY_BUFFER 0
  let gl := glBindVertexArray gl 0
  ({ s with gl := gl }, VAO, VBO)

/-- Lines 61-134 of `main`: the whole one-time setup. -/
def setup (env : Env) (s : ProgState) : ProgState × Handles :=
  let shaders := shaderSetup env s
  let geometry := vertexSetup shaders.1
  (geometry.1, ⟨shaders.2, geometry.2.1, geometry.2.2⟩)

/-- Lines 140-165 of the loop body: everything before the draw call. -/
def framePrepare (h : Handles) (location : Int) (f : FrameInput) (s : ProgState) : ProgState :=
  -- input
  let s := processInput f.keys s
  -- render
  let gl := s.gl
  let gl := glClearColor gl 0.2 0.3 0.3 1.0
  let gl := glClear gl GL_COLOR_BUFFER_BIT
  let gl := glUseProgram gl h.shaderProgram
  -- transformation matrix
  let trans := frameTransform f.time
  let (gl, vertexTransformLocation) := glGetUniformLocation gl h.shaderProgram "transform" location
  let gl := glUseProgram gl h.shaderProgram
  let gl := glUniformMatrix4fv gl vertexTransformLocation 1 GL_FALSE trans
  -- render triangles
  let gl := glBindVertexArray gl h.VAO
  { s with gl := gl }

/-- Line 166 of the loop body: the draw call. -/
def frameDraw (s : ProgState) : ProgState :=
  { s with gl := glDrawArrays s.gl GL_TRIANGLES 0 3 }

/-- Lines 170-171 of the loop body: `glfwSwapBuffers` (no effect on the
modelled state) and `glfwPollEvents`. -/
def framePresent (f : FrameInput) (s : ProgState) : ProgState :=
  glfwPollEvents s f.events

/-- One pass of the render loop (lines 139-171). -/
def loopBody (h : Handles) (location : Int) (f : FrameInput) (s : ProgState) : ProgState :=
  framePresent f (frameDraw (framePrepare h location f s))

/-- The render loop `while (!glfwWindowShouldClose(window))` (line 137), run
on the inputs of the successive passes.  `none`: the inputs ended while the
loop was still running. -/
def renderLoop (h : Handles) (location : Int) : List FrameInput → ProgState → Option ProgState
  | [], s => if s.shouldClose then some s else none
  | f :: fs, s =>
    if s.shouldClose then some s else renderLoop h location fs (loopBody h location f s)

/-- Lines 174-177 of `main`: the de-allocation after the loop. -/
def cleanup (h : Handles) (s : ProgState) : ProgState :=
  let gl := s.gl
  let gl := glDeleteVertexArrays gl h.VAO
  let gl := glDeleteBuffers gl h.VBO
  let gl := glDeleteProgram gl h.shaderProgram
  { s with gl := gl }

/-- The function `main` (lines 36-182): the exit code and the final state, or
`none` when the inputs end while the render loop is still running.  The GLFW
calls that only configure or release the window (`glfwInit`, `glfwWindowHint`,
`glfwMakeContextCurrent`, `glfwTerminate`) leave the modelled state as it is;
`glfwSetFramebufferSizeCallback` is what makes `deliver` run the callback. -/
def main (env : Env) : Option (Int × ProgState) :=
  let s := ProgState.initial
  if !env.windowCreated then
    some (-1, s.print .windowFailed)
  else if !env.gladLoaded then
    some (-1, s.print .gladFailed)
  else
    let (s, h) := setup env s
    match renderLoop h env.transformLocation env.frames s with
    | none => none
    | some s => some (0, cleanup h s)

/-! ## Derived notions used in the statements -/

/-- Attribute `index` of vertex array `array`, when the object exists. -/
def GLState.attrib (s : GLState) (array index : Nat) : Option AttribState :=
  (s.vertexArrays array).map fun attribs => attribs index

/-- Whether a recorded command is a draw call. -/
def GLCall.isDraw : GLCall → Bool
  | .drawArrays _ _ _ => true
  | _ => false

/-- Whether a recorded command writes the data store of a buffer. -/
def GLCall.isBufferWrite : GLCall → Bool
  | .bufferData _ _ _ _ => true
  | _ => false

/-- Whether a recorded command is a `glViewport`. -/
def GLCall.isViewport : GLCall → Bool
  | .viewport _ _ _ _ => true
  | _ => false

/-- The commands one pass of the loop issues before its draw call. -/
def frameCommands (h : Handles) (location : Int) (time : Rat) : List GLCall :=
  [ .clearColor 0.2 0.3 0.3 1.0,
    .clear GL_COLOR_BUFFER_BIT,
    .useProgram h.shaderProgram,
    .getUniformLocation h.shaderProgram "transform",
    .useProgram h.shaderProgram,
    .uniformMatrix4fv location 1 GL_FALSE (frameTransform time),
    .bindVertexArray h.VAO ]

/-- The commands of `vertexSetup`, for the names `VAO` and `VBO`. -/
def vertexCommands (VAO VBO : Nat) : List GLCall :=
  [ .genVertexArrays 1, .genBuffers 1, .bindVertexArray VAO, .bindBuffer GL_ARRAY_BUFFER VBO,
    .bufferData GL_ARRAY_BUFFER 72 vertices GL_STATIC_DRAW,
    .vertexAttribPointer 0 3 GL_FLOAT GL_FALSE 24 0, .enableVertexAttribArray 0,
    .vertexAttribPointer 1 3 GL_FLOAT GL_FALSE 24 12, .enableVertexAttribArray 1,
    .bindBuffer GL_ARRAY_BUFFER 0, .bindVertexArray 0 ]

/-- Whether a window event asks the window to close. -/
def WindowEvent.isClose : WindowEvent → Bool
  | .closeRequested => true
  | .framebufferSize _ _ => false

/-- The close flag after a pass of the loop, from the flag before it: the
flag is raised by Escape in `processInput` and by a close request among the
events of `glfwPollEvents`, and never lowered. -/
def closeAfter (f : FrameInput) (flag : Bool) : Bool :=
  (flag || decide (f.keys GLFW_KEY_ESCAPE = GLFW_PRESS)) || f.events.any WindowEvent.isClose

/-- Whether the render loop, started with the given close flag, is left
within the given passes. -/
def loopExits : List FrameInput → Bool → Bool
  | [], flag => flag
  | f :: fs, flag => flag || loopExits fs (closeAfter f flag)

/-- The states the render loop goes through from `start`: `start` itself,
and the state after one more pass, on any input, from a state it goes through
with the close flag clear. -/
inductive LoopReaches (h : Handles) (location : Int) (start : ProgState) : ProgState → Prop where
  | start : LoopReaches h location start start
  | pass (f : FrameInput) (s : ProgState) :
      LoopReaches h location start s → s.shouldClose = false →
      LoopReaches h location start (loopBody h location f s)

/-- The first byte attribute `a` reads for vertex `i`: the pointer offset plus
`i` strides, a stride of zero standing for tightly packed groups. -/
def AttribState.readStart (a : AttribState) (i : Nat) : Nat :=
  a.offset + (if a.stride = 0 then a.size * sizeofFloat else a.stride) * i

/-- The byte after the last one attribute `a` reads for vertex `i`. -/
def AttribState.readEnd (a : AttribState) (i : Nat) : Nat :=
  a.readStart i + a.size * sizeofFloat

/-- The floats attribute `a` delivers for vertex `i` from a buffer: the
`a.size` floats at bytes `readStart .. readEnd`, when that range is aligned
and lies inside the data store. -/
def fetchAttrib (store : BufferStore) (a : AttribState) (i : Nat) : Option (List Rat) :=
  if a.readStart i % sizeofFloat = 0 ∧ a.readEnd i ≤ store.size then
    some ((store.data.drop (a.readStart i / sizeofFloat)).take a.size)
  else none

/-- Floats per vertex: the stride `6 * sizeof(float)` of both attribute
pointers, counted in floats. -/
def floatsPerVertex : Nat := 6 * sizeofFloat / sizeofFloat

/-- The number of vertices the array `vertices` holds. -/
def vertexCount : Nat := vertices.length / floatsPerVertex

/-- A driver on which the vertex shader does not compile, the fragment shader
does, and the link fails; the window closes during the first pass. -/
def linkFailureEnv : Env where
  windowCreated := true
  gladLoaded := true
  vertexCompiles := false
  vertexLog := "vertex shader rejected"
  fragmentCompiles := true
  fragmentLog := ""
  programLinks := false
  programLog := "vertex shader is not compiled"
  transformLocation := -1
  success0 := 0
  infoLog0 := ""
  frames := [⟨fun _ => GLFW_RELEASE, 0, [.closeRequested]⟩]

/-- A run on a conforming driver: two passes, a resize to 400 x 300 during
the first, Escape pressed at the second. -/
def goodEnv : Env where
  windowCreated := true
  gladLoaded := true
  vertexCompiles := true
  vertexLog := ""
  fragmentCompiles := true
  fragmentLog := ""
  programLinks := true
  programLog := ""
  transformLocation := 0
  success0 := 0
  infoLog0 := ""
  frames :=
    [ ⟨fun _ => GLFW_RELEASE, 0, [.framebufferSize 400 300]⟩,
      ⟨fun k => if k = GLFW_KEY_ESCAPE then GLFW_PRESS else GLFW_RELEASE, 10, []⟩ ]

/-! ## Basic facts about the input and event handlers -/

theorem processInput_gl (keys : Int → Int) (s : ProgState) : (processInput keys s).gl = s.gl := by
  unfold processInput glfwSetWindowShouldClose
  split <;> rfl

theorem processInput_out (keys : Int → Int) (s : ProgState) :
    (processInput keys s).out = s.out := by
  unfold processInput glfwSetWindowShouldClose
  split <;> rfl

/-- Event delivery touches the GL context only through `glViewport`: the
record of commands grows by viewport commands, every other field is kept. -/
theorem glfwPollEvents_effect (evs : List WindowEvent) (s : ProgState) :
    ∃ vp post close,
      glfwPollEvents s evs =
        { s with
          gl := { s.gl with viewport := vp, calls := s.gl.calls ++ post }
          shouldClose := close } ∧
      (∀ c ∈ post, c.isViewport = true) ∧ (s.shouldClose = true → close = true) := by
  induction evs generalizing s with
  | nil => exact ⟨s.gl.viewport, [], s.shouldClose, by simp [glfwPollEvents], by simp, id⟩
  | cons e evs ih =>
    obtain ⟨vp, post, close, heq, hpost, hclose⟩ := ih (deliver s e)
    cases e with
    | closeRequested =>
      refine ⟨vp, post, close, ?_, hpost, fun _ => hclose rfl⟩
      simpa [glfwPollEvents, deliver, glfwSetWindowShouldClose] using heq
    | framebufferSize w h =>
      refine ⟨vp, .viewport 0 0 w h :: post, close, ?_, ?_, hclose⟩
      · simpa [glfwPollEvents, deliver, framebuffer_size_callback, glViewport, GLState.log]
          using heq
      · intro c hc
        rcases List.mem_cons.1 hc with rfl | hc
        · rfl
        · exact hpost c hc

/-! ## One pass of the render loop -/

/-- The context right before the draw call of a pass: the commands issued so
far, the vertex array binding, and the fields the pass leaves alone. -/
theorem framePrepare_gl (h : Handles) (location : Int) (f : FrameInput) (s : ProgState) :
    (framePrepare h location f s).gl.calls = s.gl.calls ++ frameCommands h location f.time ∧
    (framePrepare h location f s).gl.vertexArrayBinding = h.VAO ∧
    (framePrepare h location f s).gl.objects = s.gl.objects ∧
    (framePrepare h location f s).gl.buffers = s.gl.buffers := by
  by_cases hp : h.shaderProgram = 0 <;> by_cases hc : s.gl.currentProgram = 0 <;>
    by_cases hl : location = -1 <;> by_cases h0 : h.VAO = 0 <;>
    cases hv : s.gl.vertexArrays h.VAO <;>
    rcases ho : s.gl.objects h.shaderProgram with _ | ⟨ty, src, st, del⟩ | ⟨att, _ | _⟩ <;>
    simp [framePrepare, processInput_gl, glClearColor, glClear, glUseProgram,
      glGetUniformLocation, glUniformMatrix4fv, glBindVertexArray, GLState.log, GLState.raise,
      frameCommands, hp, hc, hl, h0, hv, ho]

theorem framePrepare_vertexArrays (h : Handles) (location : Int) (f : FrameInput) (s : ProgState)
    (hv : (s.gl.vertexArrays h.VAO).isSome = true) :
    (framePrepare h location f s).gl.vertexArrays = s.gl.vertexArrays := by
  obtain ⟨a, ha⟩ := Option.isSome_iff_exists.1 hv
  by_cases hp : h.shaderProgram = 0 <;> by_cases hc : s.gl.currentProgram = 0 <;>
    by_cases hl : location = -1 <;> by_cases h0 : h.VAO = 0 <;>
    rcases ho : s.gl.objects h.shaderProgram with _ | ⟨ty, src, st, del⟩ | ⟨att, _ | _⟩ <;>
    simp [framePrepare, processInput_gl, glClearColor, glClear, glUseProgram,
      glGetUniformLocation, glUniformMatrix4fv, glBindVertexArray, GLState.log, GLState.raise,
      hp, hc, hl, h0, ha, ho]

/-- With a linked program object behind the handle, the program is current at
the draw call and a location other than `-1` holds the matrix of the pass. -/
theorem framePrepare_linked (h : Handles) (location : Int) (f : FrameInput) (s : ProgState)
    (att : List Nat) (ho : s.gl.objects h.shaderProgram = some (.program att true))
    (hp : h.shaderProgram ≠ 0) :
    (framePrepare h location f s).gl.currentProgram = h.shaderProgram ∧
    (location ≠ -1 →
      (framePrepare h location f s).gl.uniforms h.shaderProgram location
        = some (frameTransform f.time)) := by
  by_cases hl : location = -1 <;> by_cases h0 : h.VAO = 0 <;>
    cases hv : s.gl.vertexArrays h.VAO <;>
    simp [framePrepare, processInput_gl, glClearColor, glClear, glUseProgram,
      glGetUniformLocation, glUniformMatrix4fv, glBindVertexArray, GLState.log, GLState.raise,
      hp, hl, h0, hv, ho]

/-- With an unlinked program object behind the handle and no program current,
no program is current at the draw call and no uniform has been stored. -/
theorem framePrepare_unlinked (h : Handles) (location : Int) (f : FrameInput) (s : ProgState)
    (att : List Nat) (ho : s.gl.objects h.shaderProgram = some (.program att false))
    (hp : h.shaderProgram ≠ 0) (hc : s.gl.currentProgram = 0) :
    (framePrepare h location f s).gl.currentProgram = 0 ∧
    (framePrepare h location f s).gl.uniforms = s.gl.uniforms := by
  by_cases hl : location = -1 <;> by_cases h0 : h.VAO = 0 <;>
    cases hv : s.gl.vertexArrays h.VAO <;>
    simp [framePrepare, processInput_gl, glClearColor, glClear, glUseProgram,
      glGetUniformLocation, glUniformMatrix4fv, glBindVertexArray, GLState.log, GLState.raise,
      hp, hc, hl, h0, hv, ho]

theorem framePrepare_out (h : Handles) (location : Int) (f : FrameInput) (s : ProgState) :
    (framePrepare h location f s).out = s.out := by
  simp [framePrepare, processInput_out]

/-- The record of commands after a whole pass: the commands before the draw,
the draw call, then only the viewport commands of the resize callback. -/
theorem loopBody_calls (h : Handles) (location : Int) (f : FrameInput) (s : ProgState) :
    ∃ post,
      (loopBody h location f s).gl.calls =
        s.gl.calls ++ frameCommands h location f.time ++ [.drawArrays GL_TRIANGLES 0 3] ++ post ∧
      ∀ c ∈ post, c.isViewport = true := by
  obtain ⟨vp, post, close, heq, hpost, -⟩ :=
    glfwPollEvents_effect f.events (frameDraw (framePrepare h location f s))
  refine ⟨post, ?_, hpost⟩
  unfold loopBody framePresent
  rw [heq]
  simp [frameDraw, glDrawArrays, GLState.log, (framePrepare_gl h location f s).1]

theorem viewport_not_draw (post : List GLCall) (hpost : ∀ c ∈ post, c.isViewport = true) :
    post.filter GLCall.isDraw = [] := by
  rw [List.filter_eq_nil_iff]
  intro c hc
  have := hpost c hc
  cases c <;> simp_all [GLCall.isDraw, GLCall.isViewport]

theorem viewport_not_bufferWrite (post : List GLCall)
    (hpost : ∀ c ∈ post, c.isViewport = true) : post.filter GLCall.isBufferWrite = [] := by
  rw [List.filter_eq_nil_iff]
  intro c hc
  have := hpost c hc
  cases c <;> simp_all [GLCall.isBufferWrite, GLCall.isViewport]

/-! ## The state the one-time setup leaves -/

set_option maxHeartbeats 1000000 in
/-- What `shaderSetup` prints and how it leaves the context, whatever the
compile and link results. -/
theorem shaderSetup_state (env : Env) :
    (shaderSetup env ProgState.initial).2 = 3 ∧
    (shaderSetup env ProgState.initial).1.gl.objects 3
      = some (.program [1, 2] env.programLinks) ∧
    (shaderSetup env ProgState.initial).1.out =
      (if env.vertexCompiles then [] else [.vertexFailed (env.vertexLog.take 511)]) ++
      (if env.fragmentCompiles then [] else [.fragmentFailed (env.fragmentLog.take 511)]) ++
      (if env.fragmentCompiles then [] else [.linkFailed (env.programLog.take 511)]) ∧
    (shaderSetup env ProgState.initial).1.shouldClose = false ∧
    (shaderSetup env ProgState.initial).1.gl.nextVertexArray = 1 ∧
    (shaderSetup env ProgState.initial).1.gl.nextBuffer = 1 ∧
    (shaderSetup env ProgState.initial).1.gl.vertexArrays 1 = none ∧
    (shaderSetup env ProgState.initial).1.gl.calls.filter GLCall.isBufferWrite = [] ∧
    (shaderSetup env ProgState.initial).1.gl.calls.filter GLCall.isDraw = [] ∧
    (shaderSetup env ProgState.initial).1.gl.errors = [GL_INVALID_OPERATION] ∧
    GLCall.getShaderiv 3 GL_LINK_STATUS ∈ (shaderSetup env ProgState.initial).1.gl.calls := by
  cases hv : env.vertexCompiles <;> cases hf : env.fragmentCompiles <;>
    simp [shaderSetup, ProgState.initial, GLState.initial, glCreateShader, glShaderSource,
      glCompileShader, glGetShaderiv, glGetShaderInfoLog, glCreateProgram, glAttachShader,
      glLinkProgram, glGetProgramInfoLog, glDeleteShader, GLState.log, GLState.raise,
      GL_COMPILE_STATUS, GL_LINK_STATUS, GLCall.isBufferWrite, GLCall.isDraw, hv, hf]

/-- What `vertexSetup` does from a context whose next vertex-array and buffer
names are fresh and non-zero. -/
theorem vertexSetup_state (s : ProgState) (hv : s.gl.nextVertexArray ≠ 0)
    (hb : s.gl.nextBuffer ≠ 0) (hnew : s.gl.vertexArrays s.gl.nextVertexArray = none) :
    (vertexSetup s).2 = (s.gl.nextVertexArray, s.gl.nextBuffer) ∧
    (vertexSetup s).1.gl.buffers s.gl.nextBuffer = some ⟨72, vertices, GL_STATIC_DRAW⟩ ∧
    (vertexSetup s).1.gl.attrib s.gl.nextVertexArray 0
      = some ⟨3, GL_FLOAT, GL_FALSE, 24, 0, s.gl.nextBuffer, true⟩ ∧
    (vertexSetup s).1.gl.attrib s.gl.nextVertexArray 1
      = some ⟨3, GL_FLOAT, GL_FALSE, 24, 12, s.gl.nextBuffer, true⟩ ∧
    (vertexSetup s).1.gl.calls
      = s.gl.calls ++ vertexCommands s.gl.nextVertexArray s.gl.nextBuffer ∧
    (vertexSetup s).1.gl.objects = s.gl.objects ∧
    (vertexSetup s).1.out = s.out ∧
    (vertexSetup s).1.shouldClose = s.shouldClose := by
  have h72 : sizeofVertices = 72 := rfl
  have hlen : vertices.take (72 / sizeofFloat) = vertices := rfl
  have h18 : vertices.length = 18 := rfl
  simp [vertexSetup, glGenVertexArrays, glGenBuffers, glBindVertexArray, glBindBuffer,
    glBufferData, glVertexAttribPointer, glEnableVertexAttribArray, GLState.log, GLState.raise,
    GLState.attrib, vertexCommands, hv, hb, hnew, h72, hlen, h18, sizeofFloat,
    AttribState.initial]

/-- What `setup` leaves behind, whatever the compile and link results: the
names in the locals, the uploaded buffer, the attribute layout, the program
object, the record of commands, the output and a clear close flag. -/
theorem setup_state (env : Env) :
    (setup env ProgState.initial).2 = ⟨3, 1, 1⟩ ∧
    (setup env ProgState.initial).1.gl.buffers 1 = some ⟨72, vertices, GL_STATIC_DRAW⟩ ∧
    (setup env ProgState.initial).1.gl.attrib 1 0
      = some ⟨3, GL_FLOAT, GL_FALSE, 24, 0, 1, true⟩ ∧
    (setup env ProgState.initial).1.gl.attrib 1 1
      = some ⟨3, GL_FLOAT, GL_FALSE, 24, 12, 1, true⟩ ∧
    (setup env ProgState.initial).1.gl.calls.filter GLCall.isBufferWrite
      = [.bufferData GL_ARRAY_BUFFER 72 vertices GL_STATIC_DRAW] ∧
    (setup env ProgState.initial).1.gl.calls.filter GLCall.isDraw = [] ∧
    (setup env ProgState.initial).1.gl.objects 3 = some (.program [1, 2] env.programLinks) ∧
    (setup env ProgState.initial).1.shouldClose = false ∧
    (setup env ProgState.initial).1.out = (shaderSetup env ProgState.initial).1.out := by
  obtain ⟨h2, hobj, -, hclose, hnv, hnb, hva, hbw, hdr, -, -⟩ := shaderSetup_state env
  obtain ⟨k2, kbuf, ka0, ka1, kcalls, kobj, kout, kclose⟩ :=
    vertexSetup_state (shaderSetup env ProgState.initial).1
      (by rw [hnv]; decide) (by rw [hnb]; decide) (by rw [hnv]; exact hva)
  rw [hnv, hnb] at k2 kcalls
  rw [hnb] at kbuf
  rw [hnv, hnb] at ka0 ka1
  have e1 : (setup env ProgState.initial).1 = (vertexSetup (shaderSetup env ProgState.initial).1).1 :=
    rfl
  have e2 : (setup env ProgState.initial).2 =
      ⟨(shaderSetup env ProgState.initial).2,
        (vertexSetup (shaderSetup env ProgState.initial).1).2.1,
        (vertexSetup (shaderSetup env ProgState.initial).1).2.2⟩ := rfl
  refine ⟨?_, ?_, ?_, ?_, ?_, ?_, ?_, ?_, ?_⟩
  · rw [e2, h2, k2]
  · rw [e1, kbuf]
  · rw [e1, ka0]
  · rw [e1, ka1]
  · rw [e1, kcalls, List.filter_append, hbw]
    simp [vertexCommands, GLCall.isBufferWrite]
  · rw [e1, kcalls, List.filter_append, hdr]
    simp [vertexCommands, GLCall.isDraw]
  · rw [e1, kobj, hobj]
  · rw [e1, kclose, hclose]
  · rw [e1, kout]

/-! ## Invariants of the render loop -/

/-- A pass of the loop leaves the buffer stores and the output alone, adds no
buffer write to the record, and leaves the vertex arrays alone once the vertex
array of `main` exists. -/
theorem loopBody_keeps (h : Handles) (location : Int) (f : FrameInput) (s : ProgState) :
    (loopBody h location f s).gl.buffers = s.gl.buffers ∧
    (loopBody h location f s).gl.calls.filter GLCall.isBufferWrite
      = s.gl.calls.filter GLCall.isBufferWrite ∧
    ((s.gl.vertexArrays h.VAO).isSome = true →
      (loopBody h location f s).gl.vertexArrays = s.gl.vertexArrays) ∧
    (loopBody h location f s).out = s.out := by
  obtain ⟨post, hpost, hview⟩ := loopBody_calls h location f s
  obtain ⟨vp, post', close, heq, -, -⟩ :=
    glfwPollEvents_effect f.events (frameDraw (framePrepare h location f s))
  have hb : (loopBody h location f s).gl.buffers = (framePrepare h location f s).gl.buffers := by
    unfold loopBody framePresent; rw [heq]; rfl
  have hv : (loopBody h location f s).gl.vertexArrays
      = (framePrepare h location f s).gl.vertexArrays := by
    unfold loopBody framePresent; rw [heq]; rfl
  have ho : (loopBody h location f s).out = (framePrepare h location f s).out := by
    unfold loopBody framePresent; rw [heq]; rfl
  refine ⟨?_, ?_, ?_, ?_⟩
  · rw [hb, (framePrepare_gl h location f s).2.2.2]
  · rw [hpost, List.filter_append, List.filter_append, List.filter_append,
      viewport_not_bufferWrite post hview]
    simp [frameCommands, GLCall.isBufferWrite]
  · intro hs
    rw [hv, framePrepare_vertexArrays h location f s hs]
  · rw [ho, framePrepare_out]

/-- With the window and the loader up, `main` is the setup, the loop and the
de-allocation, and its exit code is 0. -/
theorem main_running (env : Env) (hw : env.windowCreated = true) (hg : env.gladLoaded = true) :
    main env =
      (renderLoop (setup env ProgState.initial).2 env.transformLocation env.frames
          (setup env ProgState.initial).1).map
        fun s => (0, cleanup (setup env ProgState.initial).2 s) := by
  simp only [main, hw, hg]
  cases renderLoop (setup env ProgState.initial).2 env.transformLocation env.frames
      (setup env ProgState.initial).1 <;> rfl

theorem cleanup_calls (h : Handles) (s : ProgState) :
    (cleanup h s).gl.calls =
      s.gl.calls ++ [.deleteVertexArrays h.VAO, .deleteBuffers h.VBO,
        .deleteProgram h.shaderProgram] := by
  by_cases hp : s.gl.currentProgram = h.shaderProgram <;>
    simp [cleanup, glDeleteProgram, glDeleteVertexArrays, glDeleteBuffers, GLState.log, hp]

/-! ## The close flag and the end of the loop -/

theorem glfwPollEvents_shouldClose (evs : List WindowEvent) (s : ProgState) :
    (glfwPollEvents s evs).shouldClose = (s.shouldClose || evs.any WindowEvent.isClose) := by
  induction evs generalizing s with
  | nil => simp [glfwPollEvents]
  | cons e evs ih =>
    have step : glfwPollEvents s (e :: evs) = glfwPollEvents (deliver s e) evs := rfl
    rw [step, ih]
    cases e <;>
      simp [deliver, glfwSetWindowShouldClose, framebuffer_size_callback, WindowEvent.isClose]

theorem loopBody_shouldClose (h : Handles) (location : Int) (f : FrameInput) (s : ProgState) :
    (loopBody h location f s).shouldClose = closeAfter f s.shouldClose := by
  unfold loopBody framePresent
  rw [glfwPollEvents_shouldClose]
  have : (frameDraw (framePrepare h location f s)).shouldClose
      = (s.shouldClose || decide (f.keys GLFW_KEY_ESCAPE = GLFW_PRESS)) := by
    by_cases hk : f.keys GLFW_KEY_ESCAPE = GLFW_PRESS <;>
      simp [frameDraw, framePrepare, processInput, glfwSetWindowShouldClose, hk]
  rw [this, closeAfter]

/-- Whether the loop is left depends on the close flag and the inputs only. -/
theorem renderLoop_isSome (h : Handles) (location : Int) :
    ∀ (frames : List FrameInput) (s : ProgState),
      (renderLoop h location frames s).isSome = loopExits frames s.shouldClose := by
  intro frames
  induction frames with
  | nil => intro s; cases hs : s.shouldClose <;> simp [renderLoop, loopExits, hs]
  | cons f fs ih =>
    intro s
    cases hs : s.shouldClose
    · simp [renderLoop, loopExits, hs, ih, loopBody_shouldClose]
    · simp [renderLoop, loopExits, hs]

theorem closeAfter_of_closing (f : FrameInput) (flag : Bool)
    (hf : f.keys GLFW_KEY_ESCAPE = GLFW_PRESS ∨ WindowEvent.closeRequested ∈ f.events) :
    closeAfter f flag = true := by
  rcases hf with hk | he
  · simp [closeAfter, hk]
  · have : f.events.any WindowEvent.isClose = true :=
      List.any_eq_true.2 ⟨_, he, rfl⟩
    simp [closeAfter, this]

theorem loopExits_of_flag (frames : List FrameInput) : loopExits frames true = true := by
  cases frames <;> simp [loopExits]

/-- The loop is left as soon as a pass sees Escape pressed or a close request. -/
theorem loopExits_of_closing :
    ∀ (frames : List FrameInput) (flag : Bool),
      (∃ f ∈ frames, f.keys GLFW_KEY_ESCAPE = GLFW_PRESS ∨
        WindowEvent.closeRequested ∈ f.events) →
      loopExits frames flag = true := by
  intro frames
  induction frames with
  | nil => intro flag ⟨f, hf, _⟩; cases hf
  | cons g gs ih =>
    intro flag ⟨f, hf, hclosing⟩
    cases flag
    · rcases List.mem_cons.1 hf with rfl | hmem
      · simp [loopExits, closeAfter_of_closing f false hclosing, loopExits_of_flag]
      · simp [loopExits, ih _ ⟨f, hmem, hclosing⟩]
    · simp [loopExits]

/-- A run of the loop that ends stops in a state the loop goes through. -/
theorem renderLoop_reaches (h : Handles) (location : Int) (start : ProgState) :
    ∀ (frames : List FrameInput) (s s' : ProgState),
      LoopReaches h location start s → renderLoop h location frames s = some s' →
      LoopReaches h location start s' ∧ s'.shouldClose = true := by
  intro frames
  induction frames with
  | nil =>
    intro s s' hs hrun
    unfold renderLoop at hrun
    split at hrun
    · cases hrun; exact ⟨hs, by assumption⟩
    · cases hrun
  | cons f fs ih =>
    intro s s' hs hrun
    unfold renderLoop at hrun
    split at hrun
    · cases hrun; exact ⟨hs, by assumption⟩
    · exact ih _ _ (.pass f s hs (by simpa using ‹¬ s.shouldClose = true›)) hrun

/-- Every state the loop goes through has the buffer stores, the vertex
arrays, the buffer writes on record and the output of the state it started
from, provided the vertex array of `main` exists there. -/
theorem loopReaches_keeps (h : Handles) (location : Int) (start s : ProgState)
    (hv : (start.gl.vertexArrays h.VAO).isSome = true) (hs : LoopReaches h location start s) :
    s.gl.buffers = start.gl.buffers ∧
    s.gl.vertexArrays = start.gl.vertexArrays ∧
    s.gl.calls.filter GLCall.isBufferWrite = start.gl.calls.filter GLCall.isBufferWrite ∧
    s.out = start.out := by
  induction hs with
  | start => exact ⟨rfl, rfl, rfl, rfl⟩
  | pass f s _ _ ih =>
    obtain ⟨hb, hva, hc, ho⟩ := ih
    obtain ⟨kb, kc, kv, ko⟩ := loopBody_keeps h location f s
    have hv' : (s.gl.vertexArrays h.VAO).isSome = true := by rw [hva]; exact hv
    exact ⟨kb.trans hb, (kv hv').trans hva, kc.trans hc, ko.trans ho⟩

theorem attrib_of_vertexArrays (a b : GLState) (hab : a.vertexArrays = b.vertexArrays)
    (array index : Nat) : a.attrib array index = b.attrib array index := by
  simp [GLState.attrib, hab]

theorem setup_vertexArray_exists (env : Env) :
    ((setup env ProgState.initial).1.gl.vertexArrays (setup env ProgState.initial).2.VAO).isSome
      = true := by
  obtain ⟨hh, -, ha0, -⟩ := setup_state env
  rw [hh]
  cases hv : (setup env ProgState.initial).1.gl.vertexArrays 1 with
  | none => simp [GLState.attrib, hv] at ha0
  | some _ => rfl

/-! ## The current program -/

set_option maxHeartbeats 1000000 in
/-- The shader setup leaves no program current and no uniform stored. -/
theorem shaderSetup_program (env : Env) :
    (shaderSetup env ProgState.initial).1.gl.currentProgram = 0 ∧
    (shaderSetup env ProgState.initial).1.gl.uniforms 3 env.transformLocation = none := by
  cases hv : env.vertexCompiles <;> cases hf : env.fragmentCompiles <;>
    simp [shaderSetup, ProgState.initial, GLState.initial, glCreateShader, glShaderSource,
      glCompileShader, glGetShaderiv, glGetShaderInfoLog, glCreateProgram, glAttachShader,
      glLinkProgram, glGetProgramInfoLog, glDeleteShader, GLState.log, GLState.raise,
      GL_COMPILE_STATUS, GL_LINK_STATUS, hv, hf]

theorem vertexSetup_program (s : ProgState) (hv : s.gl.nextVertexArray ≠ 0)
    (hb : s.gl.nextBuffer ≠ 0) (hnew : s.gl.vertexArrays s.gl.nextVertexArray = none) :
    (vertexSetup s).1.gl.currentProgram = s.gl.currentProgram ∧
    (vertexSetup s).1.gl.uniforms = s.gl.uniforms := by
  simp [vertexSetup, glGenVertexArrays, glGenBuffers, glBindVertexArray, glBindBuffer,
    glBufferData, glVertexAttribPointer, glEnableVertexAttribArray, GLState.log, GLState.raise,
    hv, hb, hnew]

/-- After `setup` no program is current and the transform uniform is not set. -/
theorem setup_program (env : Env) :
    (setup env ProgState.initial).1.gl.currentProgram = 0 ∧
    (setup env ProgState.initial).1.gl.uniforms 3 env.transformLocation = none := by
  obtain ⟨-, -, -, -, hnv, hnb, hva, -⟩ := shaderSetup_state env
  obtain ⟨kc, ku⟩ := vertexSetup_program (shaderSetup env ProgState.initial).1
    (by rw [hnv]; decide) (by rw [hnb]; decide) (by rw [hnv]; exact hva)
  have e1 : (setup env ProgState.initial).1 = (vertexSetup (shaderSetup env ProgState.initial).1).1 :=
    rfl
  rw [e1, kc, ku]
  exact shaderSetup_program env

/-- Event delivery and the draw call leave the objects, the current program
and the uniforms as the first part of the pass left them. -/
theorem loopBody_program (h : Handles) (location : Int) (f : FrameInput) (s : ProgState) :
    (loopBody h location f s).gl.objects = s.gl.objects ∧
    (loopBody h location f s).gl.currentProgram
      = (framePrepare h location f s).gl.currentProgram ∧
    (loopBody h location f s).gl.uniforms = (framePrepare h location f s).gl.uniforms := by
  obtain ⟨vp, post, close, heq, -, -⟩ :=
    glfwPollEvents_effect f.events (frameDraw (framePrepare h location f s))
  refine ⟨?_, ?_, ?_⟩
  · have : (loopBody h location f s).gl.objects = (framePrepare h location f s).gl.objects := by
      unfold loopBody framePresent; rw [heq]; rfl
    rw [this, (framePrepare_gl h location f s).2.2.1]
  · unfold loopBody framePresent; rw [heq]; rfl
  · unfold loopBody framePresent; rw [heq]; rfl

/-- In every state the loop goes through the objects are those it started
with, and, when the program behind the handle is not linked and no program
was current at the start, no program is current and no uniform has changed. -/
theorem loopReaches_program (h : Handles) (location : Int) (start s : ProgState)
    (att : List Nat) (linked : Bool)
    (ho : start.gl.objects h.shaderProgram = some (.program att linked))
    (hp : h.shaderProgram ≠ 0) (hc : start.gl.currentProgram = 0)
    (hs : LoopReaches h location start s) :
    s.gl.objects = start.gl.objects ∧
    (linked = false → s.gl.currentProgram = 0 ∧ s.gl.uniforms = start.gl.uniforms) := by
  induction hs with
  | start => exact ⟨rfl, fun _ => ⟨hc, rfl⟩⟩
  | pass f s _ _ ih =>
    obtain ⟨hobj, hun⟩ := ih
    obtain ⟨kobj, kcur, kuni⟩ := loopBody_program h location f s
    refine ⟨kobj.trans hobj, fun hl => ?_⟩
    subst hl
    obtain ⟨hcur, huni⟩ := hun rfl
    obtain ⟨pc, pu⟩ := framePrepare_unlinked h location f s att (by rw [hobj]; exact ho) hp hcur
    exact ⟨kcur.trans pc, (kuni.trans pu).trans huni⟩

/-- The state a pass of `main` finds at its draw call, from any state the
loop goes through after `setup`: the program object and the vertex array of
`setup` exist, the vertex array is bound, and the program is current with the
transform stored exactly when it linked; otherwise no program is current and
the transform is not stored. -/
theorem pass_draw_state (env : Env) (f : FrameInput) (s : ProgState)
    (hs : LoopReaches (setup env ProgState.initial).2 env.transformLocation
      (setup env ProgState.initial).1 s) :
    s.gl.objects (setup env ProgState.initial).2.shaderProgram
      = some (.program [1, 2] env.programLinks) ∧
    (s.gl.vertexArrays (setup env ProgState.initial).2.VAO).isSome = true ∧
    (env.programLinks = true →
      (framePrepare (setup env ProgState.initial).2 env.transformLocation f s).gl.currentProgram
        = (setup env ProgState.initial).2.shaderProgram ∧
      (env.transformLocation ≠ -1 →
        (framePrepare (setup env ProgState.initial).2 env.transformLocation f s).gl.uniforms
            (setup env ProgState.initial).2.shaderProgram env.transformLocation
          = some (frameTransform f.time))) ∧
    (env.programLinks = false →
      (framePrepare (setup env ProgState.initial).2 env.transformLocation f s).gl.currentProgram
        = 0 ∧
      (framePrepare (setup env ProgState.initial).2 env.transformLocation f s).gl.uniforms
          (setup env ProgState.initial).2.shaderProgram env.transformLocation
        = none) := by
  obtain ⟨hh, -, -, -, -, -, hobj, -, -⟩ := setup_state env
  obtain ⟨hcur, huni⟩ := setup_program env
  have hp : (setup env ProgState.initial).2.shaderProgram = 3 := by rw [hh]
  have ho : (setup env ProgState.initial).1.gl.objects
      (setup env ProgState.initial).2.shaderProgram
        = some (.program [1, 2] env.programLinks) := by rw [hp]; exact hobj
  have hp0 : (setup env ProgState.initial).2.shaderProgram ≠ 0 := by rw [hp]; decide
  obtain ⟨kobj, kun⟩ := loopReaches_program _ _ _ s _ _ ho hp0 hcur hs
  obtain ⟨-, kva, -, -⟩ := loopReaches_keeps _ _ _ s (setup_vertexArray_exists env) hs
  have hos : s.gl.objects (setup env ProgState.initial).2.shaderProgram
      = some (.program [1, 2] env.programLinks) := by rw [kobj]; exact ho
  refine ⟨hos, by rw [kva]; exact setup_vertexArray_exists env, fun hl => ?_, fun hl => ?_⟩
  · rw [hl] at hos
    exact framePrepare_linked _ _ f s _ hos hp0
  · obtain ⟨hc0, hu0⟩ := kun hl
    rw [hl] at hos
    obtain ⟨pc, pu⟩ := framePrepare_unlinked _ env.transformLocation f s _ hos hp0 hc0
    refine ⟨pc, ?_⟩
    rw [pu, hu0, hp]
    exact huni

/-- With the window and the loader up and inputs on which the loop is left,
`main` returns 0. -/
theorem main_returns_zero (env : Env) (hw : env.windowCreated = true)
    (hg : env.gladLoaded = true) (hx : loopExits env.frames false = true) :
    ∃ st, main env = some (0, st) := by
  have hsome := renderLoop_isSome (setup env ProgState.initial).2 env.transformLocation
    env.frames (setup env ProgState.initial).1
  rw [(setup_state env).2.2.2.2.2.2.2.1, hx] at hsome
  obtain ⟨s', hs'⟩ := Option.isSome_iff_exists.1 hsome
  exact ⟨cleanup (setup env ProgState.initial).2 s', by rw [main_running env hw hg, hs']; rfl⟩

/-! ## The claims -/

/-- Claim C1: for every elapsed time `t` the matrix the render loop computes
(and hands to `glUniformMatrix4fv`) is the identity except for its translation
column, which is `(0.1 * t, 0.1 * t, 0, 1)`; at `t = 0` it is the identity
matrix, and at `t = 10` the translation is `X = 1`, `Y = 1`, `Z = 0`. -/
theorem transform_is_translation (t : Rat) :
    frameTransform t = ⟨⟨1, 0, 0, 0⟩, ⟨0, 1, 0, 0⟩, ⟨0, 0, 1, 0⟩, ⟨0.1 * t, 0.1 * t, 0, 1⟩⟩ ∧
    frameTransform 0 = ⟨⟨1, 0, 0, 0⟩, ⟨0, 1, 0, 0⟩, ⟨0, 0, 1, 0⟩, ⟨0, 0, 0, 1⟩⟩ ∧
    frameTransform 10 = ⟨⟨1, 0, 0, 0⟩, ⟨0, 1, 0, 0⟩, ⟨0, 0, 1, 0⟩, ⟨1, 1, 0, 1⟩⟩ ∧
    ∀ (h : Handles) (location : Int) (keys : Int → Int) (events : List WindowEvent)
      (s : ProgState),
      GLCall.uniformMatrix4fv location 1 GL_FALSE
          ⟨⟨1, 0, 0, 0⟩, ⟨0, 1, 0, 0⟩, ⟨0, 0, 1, 0⟩, ⟨0.1 * t, 0.1 * t, 0, 1⟩⟩
        ∈ (framePrepare h location ⟨keys, t, events⟩ s).gl.calls := by
  have key : ∀ u : Rat, frameTransform u
      = ⟨⟨1, 0, 0, 0⟩, ⟨0, 1, 0, 0⟩, ⟨0, 0, 1, 0⟩, ⟨0.1 * u, 0.1 * u, 0, 1⟩⟩ := by
    intro u
    simp [frameTransform, translate, mat4Diag, Vec4.add, Vec4.scale]
  refine ⟨key t, ?_, ?_, ?_⟩
  · rw [key]; norm_num
  · rw [key]; norm_num
  · intro h location keys events s
    rw [(framePrepare_gl h location ⟨keys, t, events⟩ s).1, ← key t]
    simp [frameCommands]

/-- Claim C2 as stated fails: on `linkFailureEnv` the link fails, so at the
draw call of the first pass `glUseProgram` has been refused, no program is
current, and the transform has not been stored. -/
theorem program_not_current_after_link_failure :
    (framePrepare (setup linkFailureEnv ProgState.initial).2 linkFailureEnv.transformLocation
        ⟨fun _ => GLFW_RELEASE, 0, [.closeRequested]⟩
        (setup linkFailureEnv ProgState.initial).1).gl.currentProgram
      ≠ (setup linkFailureEnv ProgState.initial).2.shaderProgram ∧
    (framePrepare (setup linkFailureEnv ProgState.initial).2 linkFailureEnv.transformLocation
        ⟨fun _ => GLFW_RELEASE, 0, [.closeRequested]⟩
        (setup linkFailureEnv ProgState.initial).1).gl.currentProgram = 0 ∧
    (framePrepare (setup linkFailureEnv ProgState.initial).2 linkFailureEnv.transformLocation
        ⟨fun _ => GLFW_RELEASE, 0, [.closeRequested]⟩
        (setup linkFailureEnv ProgState.initial).1).gl.uniforms
        (setup linkFailureEnv ProgState.initial).2.shaderProgram
        linkFailureEnv.transformLocation = none := by
  obtain ⟨hc, hu⟩ :=
    (pass_draw_state linkFailureEnv ⟨fun _ => GLFW_RELEASE, 0, [.closeRequested]⟩ _ .start).2.2.2
      rfl
  refine ⟨?_, hc, hu⟩
  rw [hc, (setup_state linkFailureEnv).1]
  decide

/-- Claim C2, amended: every pass of the render loop of `main` issues exactly one
draw call, the non-indexed `glDrawArrays(GL_TRIANGLES, 0, 3)`; when it is issued
the pass has already issued the clear, `glUseProgram` with the program of
`setup`, the upload of the transform and the binding of the vertex array of
`setup`, and that vertex array is bound; when the program linked, it is the
current program and the transform is stored (for a location other than `-1`),
and after a link failure no program is current and nothing is stored. -/
theorem one_draw_call_per_pass (env : Env) (f : FrameInput) (s : ProgState)
    (hs : LoopReaches (setup env ProgState.initial).2 env.transformLocation
      (setup env ProgState.initial).1 s) :
    -- the objects behind the handles `main` passes to the loop
    s.gl.objects (setup env ProgState.initial).2.shaderProgram
      = some (.program [1, 2] env.programLinks) ∧
    (s.gl.vertexArrays (setup env ProgState.initial).2.VAO).isSome = true ∧
    -- the commands of the pass before the draw call
    (framePrepare (setup env ProgState.initial).2 env.transformLocation f s).gl.calls =
        s.gl.calls ++
          [ .clearColor 0.2 0.3 0.3 1.0, .clear GL_COLOR_BUFFER_BIT,
            .useProgram (setup env ProgState.initial).2.shaderProgram,
            .getUniformLocation (setup env ProgState.initial).2.shaderProgram "transform",
            .useProgram (setup env ProgState.initial).2.shaderProgram,
            .uniformMatrix4fv env.transformLocation 1 GL_FALSE (frameTransform f.time),
            .bindVertexArray (setup env ProgState.initial).2.VAO ] ∧
    -- the context the draw call finds
    (framePrepare (setup env ProgState.initial).2 env.transformLocation f s).gl.vertexArrayBinding
      = (setup env ProgState.initial).2.VAO ∧
    (env.programLinks = true →
      (framePrepare (setup env ProgState.initial).2 env.transformLocation f s).gl.currentProgram
        = (setup env ProgState.initial).2.shaderProgram ∧
      (env.transformLocation ≠ -1 →
        (framePrepare (setup env ProgState.initial).2 env.transformLocation f s).gl.uniforms
            (setup env ProgState.initial).2.shaderProgram env.transformLocation
          = some (frameTransform f.time))) ∧
    (env.programLinks = false →
      (framePrepare (setup env ProgState.initial).2 env.transformLocation f s).gl.currentProgram
        = 0 ∧
      (framePrepare (setup env ProgState.initial).2 env.transformLocation f s).gl.uniforms
          (setup env ProgState.initial).2.shaderProgram env.transformLocation
        = none) ∧
    -- the draw call follows, and it is the only one of the pass
    (∃ post,
      (loopBody (setup env ProgState.initial).2 env.transformLocation f s).gl.calls =
        (framePrepare (setup env ProgState.initial).2 env.transformLocation f s).gl.calls
          ++ [.drawArrays GL_TRIANGLES 0 3] ++ post ∧
      ∀ c ∈ post, c.isDraw = false) ∧
    ((loopBody (setup env ProgState.initial).2 env.transformLocation f s).gl.calls.drop
        s.gl.calls.length).filter GLCall.isDraw
      = [.drawArrays GL_TRIANGLES 0 3] ∧
    -- and `setup` itself draws nothing
    (setup env ProgState.initial).1.gl.calls.filter GLCall.isDraw = [] := by
  obtain ⟨hcalls, hvao, -, -⟩ :=
    framePrepare_gl (setup env ProgState.initial).2 env.transformLocation f s
  obtain ⟨post, hpost, hview⟩ :=
    loopBody_calls (setup env ProgState.initial).2 env.transformLocation f s
  obtain ⟨hobj, hva, hlinked, hunlinked⟩ := pass_draw_state env f s hs
  have hnd := viewport_not_draw post hview
  refine ⟨hobj, hva, hcalls, hvao, hlinked, hunlinked, ⟨post, ?_, ?_⟩, ?_,
    (setup_state env).2.2.2.2.2.1⟩
  · rw [hpost, hcalls]
  · intro c hc
    have : c ∉ post.filter GLCall.isDraw := by rw [hnd]; simp
    simpa [List.mem_filter, hc] using this
  · rw [hpost, List.append_assoc, List.append_assoc, List.drop_left, List.filter_append,
      List.filter_append, hnd]
    simp [frameCommands, GLCall.isDraw]

/-- The statement of `one_draw_call_per_pass` at the first pass of a run on a
conforming driver: the program of `setup` is current at the draw call and holds
the transform of the pass. -/
theorem one_draw_call_per_pass_witness :
    (framePrepare (setup goodEnv ProgState.initial).2 goodEnv.transformLocation
        ⟨fun _ => GLFW_RELEASE, 0, [.framebufferSize 400 300]⟩
        (setup goodEnv ProgState.initial).1).gl.currentProgram
      = (setup goodEnv ProgState.initial).2.shaderProgram ∧
    (framePrepare (setup goodEnv ProgState.initial).2 goodEnv.transformLocation
        ⟨fun _ => GLFW_RELEASE, 0, [.framebufferSize 400 300]⟩
        (setup goodEnv ProgState.initial).1).gl.uniforms
        (setup goodEnv ProgState.initial).2.shaderProgram goodEnv.transformLocation
      = some (frameTransform 0) :=
  let hpass := (one_draw_call_per_pass goodEnv
    ⟨fun _ => GLFW_RELEASE, 0, [.framebufferSize 400 300]⟩ _ .start).2.2.2.2.1 rfl
  ⟨hpass.1, hpass.2 (by decide)⟩

/-- Claim C3: the vertex data `glBufferData` uploads is, in order, exactly
`[0.5,-0.5,0,1,0,0, -0.5,-0.5,0,0,1,0, 0,0.5,0,0,0,1]`, the upload size is the
size of the whole array, it is the only buffer write of `setup`, and no state
the render loop goes through has another buffer write on record or a changed
data store. -/
theorem vertex_data_uploaded_once (env : Env) :
    vertices = [0.5, -0.5, 0, 1, 0, 0, -0.5, -0.5, 0, 0, 1, 0, 0, 0.5, 0, 0, 0, 1] ∧
    sizeofVertices = 18 * sizeofFloat ∧
    (setup env ProgState.initial).1.gl.calls.filter GLCall.isBufferWrite
      = [.bufferData GL_ARRAY_BUFFER sizeofVertices vertices GL_STATIC_DRAW] ∧
    (setup env ProgState.initial).1.gl.buffers (setup env ProgState.initial).2.VBO
      = some ⟨sizeofVertices, vertices, GL_STATIC_DRAW⟩ ∧
    (∀ s, LoopReaches (setup env ProgState.initial).2 env.transformLocation
          (setup env ProgState.initial).1 s →
      s.gl.calls.filter GLCall.isBufferWrite
        = [.bufferData GL_ARRAY_BUFFER sizeofVertices vertices GL_STATIC_DRAW] ∧
      s.gl.buffers (setup env ProgState.initial).2.VBO
        = some ⟨sizeofVertices, vertices, GL_STATIC_DRAW⟩) ∧
    (env.windowCreated = true → env.gladLoaded = true → ∀ code st,
      main env = some (code, st) →
      st.gl.calls.filter GLCall.isBufferWrite
        = [.bufferData GL_ARRAY_BUFFER sizeofVertices vertices GL_STATIC_DRAW]) := by
  obtain ⟨hh, hbuf, -, -, hcalls, -, -, -, -⟩ := setup_state env
  have h72 : sizeofVertices = 72 := rfl
  have hreach : ∀ s, LoopReaches (setup env ProgState.initial).2 env.transformLocation
      (setup env ProgState.initial).1 s →
      s.gl.calls.filter GLCall.isBufferWrite
        = [.bufferData GL_ARRAY_BUFFER sizeofVertices vertices GL_STATIC_DRAW] ∧
      s.gl.buffers (setup env ProgState.initial).2.VBO
        = some ⟨sizeofVertices, vertices, GL_STATIC_DRAW⟩ := by
    intro s hs
    obtain ⟨kb, -, kc, -⟩ := loopReaches_keeps _ _ _ s (setup_vertexArray_exists env) hs
    rw [kc, kb, hcalls, hh, hbuf, h72]
    exact ⟨rfl, rfl⟩
  refine ⟨?_, rfl, ?_, ?_, hreach, ?_⟩
  · norm_num [vertices]
  · rw [hcalls, h72]
  · rw [hh, hbuf, h72]
  · intro hw hg code st hmain
    rw [main_running env hw hg] at hmain
    cases hrun : renderLoop (setup env ProgState.initial).2 env.transformLocation env.frames
        (setup env ProgState.initial).1 with
    | none => rw [hrun] at hmain; cases hmain
    | some s' =>
      rw [hrun] at hmain
      cases hmain
      have hr := (renderLoop_reaches _ _ _ env.frames _ s' .start hrun).1
      rw [cleanup_calls, List.filter_append, (hreach s' hr).1]
      simp [GLCall.isBufferWrite]

/-- The statement of `vertex_data_uploaded_once` on a complete run. -/
theorem vertex_data_uploaded_once_witness :
    ∃ st, main goodEnv = some (0, st) ∧
      st.gl.calls.filter GLCall.isBufferWrite
        = [.bufferData GL_ARRAY_BUFFER sizeofVertices vertices GL_STATIC_DRAW] :=
  let ⟨st, hst⟩ := main_returns_zero goodEnv rfl rfl (by decide)
  ⟨st, hst, (vertex_data_uploaded_once goodEnv).2.2.2.2.2 rfl rfl 0 st hst⟩

/-- Claim C4: `setup` declares attribute 0 as groups of 3 floats at byte
offset 0 with stride 24 and attribute 1 as groups of 3 floats at byte offset
12 with stride 24 (a float being 4 bytes), both reading the uploaded buffer,
and both are enabled there and in every state the render loop goes through. -/
theorem attribute_layout_declared (env : Env) :
    6 * sizeofFloat = 24 ∧ 3 * sizeofFloat = 12 ∧
    (setup env ProgState.initial).1.gl.attrib (setup env ProgState.initial).2.VAO 0
      = some ⟨3, GL_FLOAT, GL_FALSE, 24, 0, (setup env ProgState.initial).2.VBO, true⟩ ∧
    (setup env ProgState.initial).1.gl.attrib (setup env ProgState.initial).2.VAO 1
      = some ⟨3, GL_FLOAT, GL_FALSE, 24, 12, (setup env ProgState.initial).2.VBO, true⟩ ∧
    (∀ s, LoopReaches (setup env ProgState.initial).2 env.transformLocation
          (setup env ProgState.initial).1 s →
      s.gl.attrib (setup env ProgState.initial).2.VAO 0
        = some ⟨3, GL_FLOAT, GL_FALSE, 24, 0, (setup env ProgState.initial).2.VBO, true⟩ ∧
      s.gl.attrib (setup env ProgState.initial).2.VAO 1
        = some ⟨3, GL_FLOAT, GL_FALSE, 24, 12, (setup env ProgState.initial).2.VBO, true⟩) := by
  obtain ⟨hh, -, ha0, ha1, -⟩ := setup_state env
  refine ⟨rfl, rfl, ?_, ?_, ?_⟩
  · rw [hh, ha0]
  · rw [hh, ha1]
  · intro s hs
    obtain ⟨-, kv, -, -⟩ := loopReaches_keeps _ _ _ s (setup_vertexArray_exists env) hs
    rw [attrib_of_vertexArrays _ _ kv, attrib_of_vertexArrays _ _ kv, hh, ha0, ha1]
    exact ⟨rfl, rfl⟩

/-- The statement of `attribute_layout_declared` after the first pass of a run. -/
theorem attribute_layout_declared_witness :
    (loopBody (setup goodEnv ProgState.initial).2 0 ⟨fun _ => GLFW_RELEASE, 0, []⟩
        (setup goodEnv ProgState.initial).1).gl.attrib
        (setup goodEnv ProgState.initial).2.VAO 1
      = some ⟨3, GL_FLOAT, GL_FALSE, 24, 12, (setup goodEnv ProgState.initial).2.VBO, true⟩ :=
  ((attribute_layout_declared goodEnv).2.2.2.2 _
    (.pass _ _ .start (setup_state goodEnv).2.2.2.2.2.2.2.1)).2

/-- Claim C5 (the code departs from it): on `linkFailureEnv` the program object
ends with link status false, yet the only diagnostic printed is the vertex
one and no link diagnostic; the check at line 96 asks `glGetShaderiv` about a
program object, which raises `GL_INVALID_OPERATION` and leaves `success`
holding the fragment-shader result, so that on every driver the link
diagnostic is printed exactly when the fragment shader failed to compile. -/
theorem link_check_reads_fragment_status :
    (shaderSetup linkFailureEnv ProgState.initial).1.gl.objects
        (shaderSetup linkFailureEnv ProgState.initial).2
      = some (.program [1, 2] false) ∧
    (shaderSetup linkFailureEnv ProgState.initial).1.out
      = [.vertexFailed (linkFailureEnv.vertexLog.take 511)] ∧
    (∀ infoLog, Output.linkFailed infoLog ∉ (shaderSetup linkFailureEnv ProgState.initial).1.out) ∧
    GLCall.getShaderiv (shaderSetup linkFailureEnv ProgState.initial).2 GL_LINK_STATUS
      ∈ (shaderSetup linkFailureEnv ProgState.initial).1.gl.calls ∧
    (shaderSetup linkFailureEnv ProgState.initial).1.gl.errors = [GL_INVALID_OPERATION] ∧
    (∀ env : Env,
      (∃ infoLog, Output.linkFailed infoLog ∈ (shaderSetup env ProgState.initial).1.out) ↔
        env.fragmentCompiles = false) := by
  obtain ⟨h2, hobj, hout, -, -, -, -, -, -, herr, hcall⟩ := shaderSetup_state linkFailureEnv
  have hout' : (shaderSetup linkFailureEnv ProgState.initial).1.out
      = [.vertexFailed (linkFailureEnv.vertexLog.take 511)] := by
    rw [hout]; rfl
  refine ⟨?_, hout', ?_, ?_, herr, ?_⟩
  · rw [h2, hobj]; rfl
  · intro infoLog hmem
    rw [hout'] at hmem
    simp at hmem
  · rw [h2]; exact hcall
  · intro env
    rw [(shaderSetup_state env).2.2.1]
    cases env.vertexCompiles <;> cases env.fragmentCompiles <;> simp

/-- Claim C6: `main` returns -1 when window creation or the loader fails and
only then; every other run that leaves the render loop returns 0, and it does
leave it once a pass sees Escape or a close request; the compile and link
results change neither the exit code nor whether `main` returns, and the loop
is entered: its condition holds after `setup` and the first pass is run. -/
theorem main_exit_code (env : Env) :
    ((env.windowCreated = false ∨ env.gladLoaded = false) → ∃ st, main env = some (-1, st)) ∧
    (∀ code st, main env = some (code, st) →
      (code = -1 ↔ (env.windowCreated = false ∨ env.gladLoaded = false)) ∧
      (code = -1 ∨ code = 0)) ∧
    (env.windowCreated = true → env.gladLoaded = true →
      ∀ s', renderLoop (setup env ProgState.initial).2 env.transformLocation env.frames
              (setup env ProgState.initial).1 = some s' →
        main env = some (0, cleanup (setup env ProgState.initial).2 s')) ∧
    (env.windowCreated = true → env.gladLoaded = true →
      (∃ f ∈ env.frames, f.keys GLFW_KEY_ESCAPE = GLFW_PRESS ∨
        WindowEvent.closeRequested ∈ f.events) →
      ∃ st, main env = some (0, st)) ∧
    (∀ v f l : Bool,
      (main { env with vertexCompiles := v, fragmentCompiles := f, programLinks := l }).map
          Prod.fst
        = (main env).map Prod.fst) ∧
    (env.windowCreated = true → env.gladLoaded = true →
      (setup env ProgState.initial).1.shouldClose = false ∧
      ∀ f fs, env.frames = f :: fs →
        main env =
          (renderLoop (setup env ProgState.initial).2 env.transformLocation fs
            (loopBody (setup env ProgState.initial).2 env.transformLocation f
              (setup env ProgState.initial).1)).map
            fun s => (0, cleanup (setup env ProgState.initial).2 s)) := by
  have hclose := (setup_state env).2.2.2.2.2.2.2.1
  refine ⟨?_, ?_, ?_, ?_, ?_, ?_⟩
  · intro hfail
    rcases Bool.eq_false_or_eq_true env.windowCreated with hw | hw
    · rcases Bool.eq_false_or_eq_true env.gladLoaded with hg | hg
      · rcases hfail with h | h
        · rw [hw] at h; cases h
        · rw [hg] at h; cases h
      · exact ⟨ProgState.initial.print .gladFailed, by simp [main, hw, hg]⟩
    · exact ⟨ProgState.initial.print .windowFailed, by simp [main, hw]⟩
  · intro code st hmain
    rcases Bool.eq_false_or_eq_true env.windowCreated with hw | hw
    · rcases Bool.eq_false_or_eq_true env.gladLoaded with hg | hg
      · rw [main_running env hw hg] at hmain
        cases hrun : renderLoop (setup env ProgState.initial).2 env.transformLocation
            env.frames (setup env ProgState.initial).1 with
        | none => rw [hrun] at hmain; cases hmain
        | some s' =>
          rw [hrun] at hmain
          cases hmain
          simp [hw, hg]
      · simp [main, hw, hg] at hmain
        simp [← hmain.1, hg]
    · simp [main, hw] at hmain
      simp [← hmain.1, hw]
  · intro hw hg s' hrun
    rw [main_running env hw hg, hrun]; rfl
  · intro hw hg hclosing
    exact main_returns_zero env hw hg (loopExits_of_closing _ _ hclosing)
  · intro v f l
    rcases Bool.eq_false_or_eq_true env.windowCreated with hw | hw
    · rcases Bool.eq_false_or_eq_true env.gladLoaded with hg | hg
      · rw [main_running env hw hg,
          main_running { env with vertexCompiles := v, fragmentCompiles := f, programLinks := l }
            hw hg]
        have h1 := renderLoop_isSome (setup env ProgState.initial).2 env.transformLocation
          env.frames (setup env ProgState.initial).1
        have h2 := renderLoop_isSome
          (setup { env with vertexCompiles := v, fragmentCompiles := f, programLinks := l }
            ProgState.initial).2 env.transformLocation env.frames
          (setup { env with vertexCompiles := v, fragmentCompiles := f, programLinks := l }
            ProgState.initial).1
        rw [(setup_state _).2.2.2.2.2.2.2.1] at h1 h2
        rw [← h1] at h2
        revert h2
        cases renderLoop (setup env ProgState.initial).2 env.transformLocation
            env.frames (setup env ProgState.initial).1 <;>
          cases renderLoop
            (setup { env with vertexCompiles := v, fragmentCompiles := f, programLinks := l }
              ProgState.initial).2 env.transformLocation env.frames
            (setup { env with vertexCompiles := v, fragmentCompiles := f, programLinks := l }
              ProgState.initial).1 <;> simp
      · simp [main, hw, hg]
    · simp [main, hw]
  · intro hw hg
    refine ⟨hclose, ?_⟩
    intro f fs hfr
    rw [main_running env hw hg, hfr]
    simp [renderLoop, hclose]

/-- The statement of `main_exit_code` on three runs: no window, a complete run
on a conforming driver, and a complete run with a compile and a link failure. -/
theorem main_exit_code_witness :
    (∃ st, main { goodEnv with windowCreated := false } = some (-1, st)) ∧
    (∃ st, main goodEnv = some (0, st)) ∧
    (∃ st, main linkFailureEnv = some (0, st)) :=
  ⟨(main_exit_code { goodEnv with windowCreated := false }).1 (Or.inl rfl),
   (main_exit_code goodEnv).2.2.2.1 rfl rfl
     ⟨⟨fun k => if k = GLFW_KEY_ESCAPE then GLFW_PRESS else GLFW_RELEASE, 10, []⟩,
       by simp [goodEnv], Or.inl (by decide)⟩,
   (main_exit_code linkFailureEnv).2.2.2.1 rfl rfl
     ⟨⟨fun _ => GLFW_RELEASE, 0, [.closeRequested]⟩, by simp [linkFailureEnv],
       Or.inr (by simp)⟩⟩

/-- Claim C7: for every width and height `framebuffer_size_callback` issues
`glViewport(0, 0, width, height)`, which sets the viewport to exactly that
rectangle, and changes nothing else; for `(400, 300)` the viewport becomes
`(0, 0, 400, 300)`. -/
theorem framebuffer_size_callback_viewport (s : ProgState) (width height : Int) :
    framebuffer_size_callback s width height =
      { s with
        gl := { s.gl with
          viewport := ⟨0, 0, width, height⟩
          calls := s.gl.calls ++ [.viewport 0 0 width height] } } ∧
    (framebuffer_size_callback s width height).gl.viewport = ⟨0, 0, width, height⟩ ∧
    (framebuffer_size_callback s 400 300).gl.viewport = ⟨0, 0, 400, 300⟩ :=
  ⟨rfl, rfl, rfl⟩

/-- Claim C8: for every keyboard state `processInput` sets the close flag to
true when Escape is in the pressed state and otherwise leaves the whole state,
the close flag included, as it was, whatever the other keys are; it never
turns a set flag off. -/
theorem processInput_close_flag (keys : Int → Int) (s : ProgState) :
    (keys GLFW_KEY_ESCAPE = GLFW_PRESS → processInput keys s = { s with shouldClose := true }) ∧
    (keys GLFW_KEY_ESCAPE ≠ GLFW_PRESS → processInput keys s = s) ∧
    (s.shouldClose = true → (processInput keys s).shouldClose = true) ∧
    (∀ keys' : Int → Int, keys' GLFW_KEY_ESCAPE = keys GLFW_KEY_ESCAPE →
      processInput keys' s = processInput keys s) := by
  refine ⟨?_, ?_, ?_, ?_⟩
  · intro hk; simp [processInput, hk, glfwSetWindowShouldClose]
  · intro hk; simp [processInput, hk]
  · intro hs
    unfold processInput glfwSetWindowShouldClose
    split
    · rfl
    · exact hs
  · intro keys' hk; simp [processInput, hk]

/-- The statement of `processInput_close_flag` at two keyboards: Escape alone
pressed raises the flag; every key but Escape pressed changes nothing. -/
theorem processInput_close_flag_witness :
    processInput (fun k => if k = 256 then 1 else 0) ProgState.initial
      = { ProgState.initial with shouldClose := true } ∧
    processInput (fun k => if k = 256 then 0 else 1) ProgState.initial = ProgState.initial :=
  ⟨(processInput_close_flag (fun k => if k = 256 then 1 else 0) ProgState.initial).1
      (by decide),
   (processInput_close_flag (fun k => if k = 256 then 0 else 1) ProgState.initial).2.1
      (by decide)⟩

/-- Claim C9 as stated fails: the array holds 18 floats, which are three
groups of `3 + 3`, not the 54 floats of nine such vertices. -/
theorem vertices_are_not_nine :
    vertexCount ≠ 9 ∧ vertices.length ≠ 9 * (3 + 3) ∧ vertices.length = 18 := by
  decide

/-- Claim C9, amended: the fixed vertex array comprises three vertices in total
(18 floats, the three the draw call fetches), each made of a 3-float position
followed by a 3-float colour, which are what attributes 0 and 1 of the declared
layout deliver for that vertex. -/
theorem vertices_are_three (env : Env) :
    vertexCount = 3 ∧ vertices.length = 3 * (3 + 3) ∧ floatsPerVertex = 3 + 3 ∧
    (∀ s : ProgState,
      (frameDraw s).gl.calls = s.gl.calls ++ [.drawArrays GL_TRIANGLES 0 vertexCount]) ∧
    ∃ pos col,
      (setup env ProgState.initial).1.gl.attrib (setup env ProgState.initial).2.VAO 0
        = some pos ∧
      (setup env ProgState.initial).1.gl.attrib (setup env ProgState.initial).2.VAO 1
        = some col ∧
      ∀ i, i < vertexCount →
        ∃ position colour,
          position.length = 3 ∧ colour.length = 3 ∧
          (vertices.drop (floatsPerVertex * i)).take floatsPerVertex = position ++ colour ∧
          fetchAttrib ⟨sizeofVertices, vertices, GL_STATIC_DRAW⟩ pos i = some position ∧
          fetchAttrib ⟨sizeofVertices, vertices, GL_STATIC_DRAW⟩ col i = some colour := by
  obtain ⟨hh, -, ha0, ha1, -⟩ := setup_state env
  refine ⟨rfl, rfl, rfl, fun _ => rfl, _, _, by rw [hh, ha0], by rw [hh, ha1], ?_⟩
  intro i hi
  have hi3 : i < 3 := hi
  interval_cases i
  · exact ⟨[0.5, -0.5, 0.0], [1.0, 0.0, 0.0], rfl, rfl, rfl, rfl, rfl⟩
  · exact ⟨[-0.5, -0.5, 0.0], [0.0, 1.0, 0.0], rfl, rfl, rfl, rfl, rfl⟩
  · exact ⟨[0.0, 0.5, 0.0], [0.0, 0.0, 1.0], rfl, rfl, rfl, rfl, rfl⟩

/-- The statement of `vertices_are_three` at the last vertex. -/
theorem vertices_are_three_witness :
    ∃ pos col,
      (setup goodEnv ProgState.initial).1.gl.attrib 1 0 = some pos ∧
      (setup goodEnv ProgState.initial).1.gl.attrib 1 1 = some col ∧
      ∃ position colour,
        position.length = 3 ∧ colour.length = 3 ∧
        (vertices.drop (floatsPerVertex * 2)).take floatsPerVertex = position ++ colour ∧
        fetchAttrib ⟨sizeofVertices, vertices, GL_STATIC_DRAW⟩ pos 2 = some position ∧
        fetchAttrib ⟨sizeofVertices, vertices, GL_STATIC_DRAW⟩ col 2 = some colour :=
  let ⟨pos, col, hp, hc, hall⟩ := (vertices_are_three goodEnv).2.2.2.2
  ⟨pos, col, by rw [← hp, (setup_state goodEnv).1], by rw [← hc, (setup_state goodEnv).1],
    hall 2 (by decide)⟩

/-- Claim C10: the declared layout matches the uploaded buffer: for each vertex
`i` of the draw call (`i < 3`) and each attribute `a` (`a < 2`) the 12-byte read
starts at byte `12 * a + 24 * i` and lies inside the 72-byte buffer; the six
reads are pairwise disjoint and cover every byte of the buffer; and they
deliver the positions `(0.5,-0.5,0)`, `(-0.5,-0.5,0)`, `(0,0.5,0)` and the
colours `(1,0,0)`, `(0,1,0)`, `(0,0,1)`. -/
theorem attribute_reads_match_buffer (env : Env) :
    ∃ attr : Nat → AttribState, ∃ store : BufferStore,
      (∀ a, a < 2 →
        (setup env ProgState.initial).1.gl.attrib (setup env ProgState.initial).2.VAO a
          = some (attr a) ∧
        (attr a).enabled = true ∧
        (attr a).buffer = (setup env ProgState.initial).2.VBO) ∧
      (setup env ProgState.initial).1.gl.buffers (setup env ProgState.initial).2.VBO
        = some store ∧
      store.size = 72 ∧
      (∀ a, a < 2 → ∀ i, i < 3 →
        (attr a).readStart i = 12 * a + 24 * i ∧
        (attr a).readEnd i = (attr a).readStart i + 12 ∧
        (attr a).readEnd i ≤ store.size) ∧
      (∀ a, a < 2 → ∀ i, i < 3 → ∀ b, b < 2 → ∀ j, j < 3 → (a, i) ≠ (b, j) →
        (attr a).readEnd i ≤ (attr b).readStart j ∨
        (attr b).readEnd j ≤ (attr a).readStart i) ∧
      (∀ byte, byte < store.size →
        ∃ a, a < 2 ∧ ∃ i, i < 3 ∧
          (attr a).readStart i ≤ byte ∧ byte < (attr a).readEnd i) ∧
      fetchAttrib store (attr 0) 0 = some [0.5, -0.5, 0] ∧
      fetchAttrib store (attr 0) 1 = some [-0.5, -0.5, 0] ∧
      fetchAttrib store (attr 0) 2 = some [0, 0.5, 0] ∧
      fetchAttrib store (attr 1) 0 = some [1, 0, 0] ∧
      fetchAttrib store (attr 1) 1 = some [0, 1, 0] ∧
      fetchAttrib store (attr 1) 2 = some [0, 0, 1] := by
  obtain ⟨hh, hbuf, ha0, ha1, -⟩ := setup_state env
  refine ⟨fun a => ⟨3, GL_FLOAT, GL_FALSE, 24, 12 * a, 1, true⟩,
    ⟨72, vertices, GL_STATIC_DRAW⟩, ?_, by rw [hh, hbuf], rfl, ?_, ?_, ?_, ?_⟩
  · intro a ha
    rw [hh]
    interval_cases a
    · exact ⟨ha0, rfl, rfl⟩
    · exact ⟨ha1, rfl, rfl⟩
  · intro a ha i hi
    simp only [AttribState.readStart, AttribState.readEnd, sizeofFloat,
      if_neg (show ¬ (24 : Nat) = 0 by decide)]
    simp only [true_and]
    omega
  · intro a ha i hi b hb j hj hne
    simp only [AttribState.readStart, AttribState.readEnd, sizeofFloat,
      if_neg (show ¬ (24 : Nat) = 0 by decide)]
    have : a ≠ b ∨ i ≠ j := by
      by_contra hcon
      push_neg at hcon
      exact hne (by rw [hcon.1, hcon.2])
    omega
  · intro byte hbyte
    simp only [AttribState.readStart, AttribState.readEnd, sizeofFloat,
      if_neg (show ¬ (24 : Nat) = 0 by decide)]
    have hb72 : byte < 72 := hbyte
    refine ⟨byte / 12 % 2, by omega, byte / 24, by omega, ?_, ?_⟩ <;> omega
  · simp [fetchAttrib, AttribState.readStart, AttribState.readEnd, sizeofFloat, vertices]
    norm_num

/-- The statement of `attribute_reads_match_buffer` at two reads: the colour of
vertex 0 and the position of vertex 1 do not overlap. -/
theorem attribute_reads_match_buffer_witness :
    ∃ attr : Nat → AttribState,
      (setup goodEnv ProgState.initial).1.gl.attrib 1 0 = some (attr 0) ∧
      (setup goodEnv ProgState.initial).1.gl.attrib 1 1 = some (attr 1) ∧
      ((attr 1).readEnd 0 ≤ (attr 0).readStart 1 ∨ (attr 0).readEnd 1 ≤ (attr 1).readStart 0) :=
  let ⟨attr, _, hattr, _, _, _, hdisj, _⟩ := attribute_reads_match_buffer goodEnv
  ⟨attr, by rw [← (hattr 0 (by decide)).1, (setup_state goodEnv).1],
    by rw [← (hattr 1 (by decide)).1, (setup_state goodEnv).1],
    hdisj 1 (by decide) 0 (by decide) 0 (by decide) 1 (by decide) (by decide)⟩

end LearnOpenGL
